import Mathlib

/-!
Verification of the pyosmo360 DJI Osmo 360 client protocol engine.

The definitions below are a shallow embedding of `src/pyosmo360/osmo360.py`:
byte strings become `List Nat` (each element a byte value), Python integers
become `Nat`, raised exceptions become `Option`/`Except` error results, and
the stateful methods of class `Osmo360` become explicit state-passing
functions.  Each definition's doc comment names the Python symbol it embeds.
-/

set_option maxRecDepth 8192

/-- `Osmo360.DJI_CRC16_TABLE` (256 precomputed 16-bit entries). -/
def DJI_CRC16_TABLE : List Nat := [
  0x0000, 0xc0c1, 0xc181, 0x0140, 0xc301, 0x03c0, 0x0280, 0xc241,
  0xc601, 0x06c0, 0x0780, 0xc741, 0x0500, 0xc5c1, 0xc481, 0x0440,
  0xcc01, 0x0cc0, 0x0d80, 0xcd41, 0x0f00, 0xcfc1, 0xce81, 0x0e40,
  0x0a00, 0xcac1, 0xcb81, 0x0b40, 0xc901, 0x09c0, 0x0880, 0xc841,
  0xd801, 0x18c0, 0x1980, 0xd941, 0x1b00, 0xdbc1, 0xda81, 0x1a40,
  0x1e00, 0xdec1, 0xdf81, 0x1f40, 0xdd01, 0x1dc0, 0x1c80, 0xdc41,
  0x1400, 0xd4c1, 0xd581, 0x1540, 0xd701, 0x17c0, 0x1680, 0xd641,
  0xd201, 0x12c0, 0x1380, 0xd341, 0x1100, 0xd1c1, 0xd081, 0x1040,
  0xf001, 0x30c0, 0x3180, 0xf141, 0x3300, 0xf3c1, 0xf281, 0x3240,
  0x3600, 0xf6c1, 0xf781, 0x3740, 0xf501, 0x35c0, 0x3480, 0xf441,
  0x3c00, 0xfcc1, 0xfd81, 0x3d40, 0xff01, 0x3fc0, 0x3e80, 0xfe41,
  0xfa01, 0x3ac0, 0x3b80, 0xfb41, 0x3900, 0xf9c1, 0xf881, 0x3840,
  0x2800, 0xe8c1, 0xe981, 0x2940, 0xeb01, 0x2bc0, 0x2a80, 0xea41,
  0xee01, 0x2ec0, 0x2f80, 0xef41, 0x2d00, 0xedc1, 0xec81, 0x2c40,
  0xe401, 0x24c0, 0x2580, 0xe541, 0x2700, 0xe7c1, 0xe681, 0x2640,
  0x2200, 0xe2c1, 0xe381, 0x2340, 0xe101, 0x21c0, 0x2080, 0xe041,
  0xa001, 0x60c0, 0x6180, 0xa141, 0x6300, 0xa3c1, 0xa281, 0x6240,
  0x6600, 0xa6c1, 0xa781, 0x6740, 0xa501, 0x65c0, 0x6480, 0xa441,
  0x6c00, 0xacc1, 0xad81, 0x6d40, 0xaf01, 0x6fc0, 0x6e80, 0xae41,
  0xaa01, 0x6ac0, 0x6b80, 0xab41, 0x6900, 0xa9c1, 0xa881, 0x6840,
  0x7800, 0xb8c1, 0xb981, 0x7940, 0xbb01, 0x7bc0, 0x7a80, 0xba41,
  0xbe01, 0x7ec0, 0x7f80, 0xbf41, 0x7d00, 0xbdc1, 0xbc81, 0x7c40,
  0xb401, 0x74c0, 0x7580, 0xb541, 0x7700, 0xb7c1, 0xb681, 0x7640,
  0x7200, 0xb2c1, 0xb381, 0x7340, 0xb101, 0x71c0, 0x7080, 0xb041,
  0x5000, 0x90c1, 0x9181, 0x5140, 0x9301, 0x53c0, 0x5280, 0x9241,
  0x9601, 0x56c0, 0x5780, 0x9741, 0x5500, 0x95c1, 0x9481, 0x5440,
  0x9c01, 0x5cc0, 0x5d80, 0x9d41, 0x5f00, 0x9fc1, 0x9e81, 0x5e40,
  0x5a00, 0x9ac1, 0x9b81, 0x5b40, 0x9901, 0x59c0, 0x5880, 0x9841,
  0x8801, 0x48c0, 0x4980, 0x8941, 0x4b00, 0x8bc1, 0x8a81, 0x4a40,
  0x4e00, 0x8ec1, 0x8f81, 0x4f40, 0x8d01, 0x4dc0, 0x4c80, 0x8c41,
  0x4400, 0x84c1, 0x8581, 0x4540, 0x8701, 0x47c0, 0x4680, 0x8641,
  0x8201, 0x42c0, 0x4380, 0x8341, 0x4100, 0x81c1, 0x8081, 0x4040]

/-- `Osmo360.DJI_CRC32_TABLE` (256 precomputed 32-bit entries). -/
def DJI_CRC32_TABLE : List Nat := [
  0x00000000, 0x77073096, 0xee0e612c, 0x990951ba, 0x076dc419, 0x706af48f, 0xe963a535, 0x9e6495a3,
  0x0edb8832, 0x79dcb8a4, 0xe0d5e91e, 0x97d2d988, 0x09b64c2b, 0x7eb17cbd, 0xe7b82d07, 0x90bf1d91,
  0x1db71064, 0x6ab020f2, 0xf3b97148, 0x84be41de, 0x1adad47d, 0x6ddde4eb, 0xf4d4b551, 0x83d385c7,
  0x136c9856, 0x646ba8c0, 0xfd62f97a, 0x8a65c9ec, 0x14015c4f, 0x63066cd9, 0xfa0f3d63, 0x8d080df5,
  0x3b6e20c8, 0x4c69105e, 0xd56041e4, 0xa2677172, 0x3c03e4d1, 0x4b04d447, 0xd20d85fd, 0xa50ab56b,
  0x35b5a8fa, 0x42b2986c, 0xdbbbc9d6, 0xacbcf940, 0x32d86ce3, 0x45df5c75, 0xdcd60dcf, 0xabd13d59,
  0x26d930ac, 0x51de003a, 0xc8d75180, 0xbfd06116, 0x21b4f4b5, 0x56b3c423, 0xcfba9599, 0xb8bda50f,
  0x2802b89e, 0x5f058808, 0xc60cd9b2, 0xb10be924, 0x2f6f7c87, 0x58684c11, 0xc1611dab, 0xb6662d3d,
  0x76dc4190, 0x01db7106, 0x98d220bc, 0xefd5102a, 0x71b18589, 0x06b6b51f, 0x9fbfe4a5, 0xe8b8d433,
  0x7807c9a2, 0x0f00f934, 0x9609a88e, 0xe10e9818, 0x7f6a0dbb, 0x086d3d2d, 0x91646c97, 0xe6635c01,
  0x6b6b51f4, 0x1c6c6162, 0x856530d8, 0xf262004e, 0x6c0695ed, 0x1b01a57b, 0x8208f4c1, 0xf50fc457,
  0x65b0d9c6, 0x12b7e950, 0x8bbeb8ea, 0xfcb9887c, 0x62dd1ddf, 0x15da2d49, 0x8cd37cf3, 0xfbd44c65,
  0x4db26158, 0x3ab551ce, 0xa3bc0074, 0xd4bb30e2, 0x4adfa541, 0x3dd895d7, 0xa4d1c46d, 0xd3d6f4fb,
  0x4369e96a, 0x346ed9fc, 0xad678846, 0xda60b8d0, 0x44042d73, 0x33031de5, 0xaa0a4c5f, 0xdd0d7cc9,
  0x5005713c, 0x270241aa, 0xbe0b1010, 0xc90c2086, 0x5768b525, 0x206f85b3, 0xb966d409, 0xce61e49f,
  0x5edef90e, 0x29d9c998, 0xb0d09822, 0xc7d7a8b4, 0x59b33d17, 0x2eb40d81, 0xb7bd5c3b, 0xc0ba6cad,
  0xedb88320, 0x9abfb3b6, 0x03b6e20c, 0x74b1d29a, 0xead54739, 0x9dd277af, 0x04db2615, 0x73dc1683,
  0xe3630b12, 0x94643b84, 0x0d6d6a3e, 0x7a6a5aa8, 0xe40ecf0b, 0x9309ff9d, 0x0a00ae27, 0x7d079eb1,
  0xf00f9344, 0x8708a3d2, 0x1e01f268, 0x6906c2fe, 0xf762575d, 0x806567cb, 0x196c3671, 0x6e6b06e7,
  0xfed41b76, 0x89d32be0, 0x10da7a5a, 0x67dd4acc, 0xf9b9df6f, 0x8ebeeff9, 0x17b7be43, 0x60b08ed5,
  0xd6d6a3e8, 0xa1d1937e, 0x38d8c2c4, 0x4fdff252, 0xd1bb67f1, 0xa6bc5767, 0x3fb506dd, 0x48b2364b,
  0xd80d2bda, 0xaf0a1b4c, 0x36034af6, 0x41047a60, 0xdf60efc3, 0xa867df55, 0x316e8eef, 0x4669be79,
  0xcb61b38c, 0xbc66831a, 0x256fd2a0, 0x5268e236, 0xcc0c7795, 0xbb0b4703, 0x220216b9, 0x5505262f,
  0xc5ba3bbe, 0xb2bd0b28, 0x2bb45a92, 0x5cb36a04, 0xc2d7ffa7, 0xb5d0cf31, 0x2cd99e8b, 0x5bdeae1d,
  0x9b64c2b0, 0xec63f226, 0x756aa39c, 0x026d930a, 0x9c0906a9, 0xeb0e363f, 0x72076785, 0x05005713,
  0x95bf4a82, 0xe2b87a14, 0x7bb12bae, 0x0cb61b38, 0x92d28e9b, 0xe5d5be0d, 0x7cdcefb7, 0x0bdbdf21,
  0x86d3d2d4, 0xf1d4e242, 0x68ddb3f8, 0x1fda836e, 0x81be16cd, 0xf6b9265b, 0x6fb077e1, 0x18b74777,
  0x88085ae6, 0xff0f6a70, 0x66063bca, 0x11010b5c, 0x8f659eff, 0xf862ae69, 0x616bffd3, 0x166ccf45,
  0xa00ae278, 0xd70dd2ee, 0x4e048354, 0x3903b3c2, 0xa7672661, 0xd06016f7, 0x4969474d, 0x3e6e77db,
  0xaed16a4a, 0xd9d65adc, 0x40df0b66, 0x37d83bf0, 0xa9bcae53, 0xdebb9ec5, 0x47b2cf7f, 0x30b5ffe9,
  0xbdbdf21c, 0xcabac28a, 0x53b39330, 0x24b4a3a6, 0xbad03605, 0xcdd70693, 0x54de5729, 0x23d967bf,
  0xb3667a2e, 0xc4614ab8, 0x5d681b02, 0x2a6f2b94, 0xb40bbe37, 0xc30c8ea1, 0x5a05df1b, 0x2d02ef8d]

/-- Python `int.to_bytes(2, 'little')`, defined for values below `2 ^ 16`. -/
def u16le (v : Nat) : List Nat := [v % 256, v / 256 % 256]

/-- Python `int.to_bytes(4, 'little')`, defined for values below `2 ^ 32`. -/
def u32le (v : Nat) : List Nat :=
  [v % 256, v / 256 % 256, v / 65536 % 256, v / 16777216 % 256]

/-- Python `int.from_bytes(bs, 'little')`. -/
def fromLE : List Nat → Nat
  | [] => 0
  | b :: rest => b + 256 * fromLE rest

/-- Python slice `l[a:b]` for `0 ≤ a ≤ b` (truncating at the list's end). -/
def pySlice (l : List Nat) (a b : Nat) : List Nat := (l.drop a).take (b - a)

/-- Loop body of `Osmo360._ccrc16`:
`crc = (DJI_CRC16_TABLE[(crc ^ b) & 0xFF] ^ (crc >> 8)) & 0xFFFF`. -/
def crc16_update (crc b : Nat) : Nat :=
  (DJI_CRC16_TABLE.getD ((crc ^^^ b) &&& 0xFF) 0 ^^^ (crc >>> 8)) &&& 0xFFFF

/-- The `for b in data` loop of `Osmo360._ccrc16`. -/
def crc16_loop : Nat → List Nat → Nat
  | crc, [] => crc
  | crc, b :: rest => crc16_loop (crc16_update crc b) rest

/-- `Osmo360._ccrc16(data, init=0x3AA3)` (the seed is passed explicitly here). -/
def ccrc16 (data : List Nat) (init : Nat) : Nat := crc16_loop init data

/-- Loop body of `Osmo360._ccrc32`:
`crc = (DJI_CRC32_TABLE[(crc ^ b) & 0xFF] ^ (crc >> 8)) & 0xFFFFFFFF`. -/
def crc32_update (crc b : Nat) : Nat :=
  (DJI_CRC32_TABLE.getD ((crc ^^^ b) &&& 0xFF) 0 ^^^ (crc >>> 8)) &&& 0xFFFFFFFF

/-- The `for b in data` loop of `Osmo360._ccrc32`. -/
def crc32_loop : Nat → List Nat → Nat
  | crc, [] => crc
  | crc, b :: rest => crc32_loop (crc32_update crc b) rest

/-- `Osmo360._ccrc32(data, init=0x00003AA3)` (the seed is passed explicitly here). -/
def ccrc32 (data : List Nat) (init : Nat) : Nat := crc32_loop init data

/-! ## Frame codec (`Osmo360.build_dji_frame` / `Osmo360.parse_dji_frame`) -/

/-- The `ValueError` kinds raised by `Osmo360.parse_dji_frame`, in source order:
frame too short, bad SOF byte, declared/actual length mismatch, CRC16 check
failure, CRC32 check failure, DATA section shorter than two bytes. -/
inductive FrameError
  | tooShort
  | badSof
  | lengthMismatch
  | crc16Mismatch
  | crc32Mismatch
  | dataTooShort
  deriving DecidableEq, Repr

/-- The dict returned by `Osmo360.parse_dji_frame`. -/
structure ParsedFrame where
  version : Nat
  length : Nat
  frame_type : Nat
  ack_type : Nat
  enc : Nat
  seq : Nat
  crc16 : Nat
  crc32 : Nat
  cmd_set : Nat
  cmd_id : Nat
  data : List Nat
  deriving DecidableEq, Repr

/-- `Osmo360.build_dji_frame(cmd_set, cmd_id, payload, is_response=False, ack_type=1)`:
SOF `0xAA`; two-byte little-endian Ver/Length (version 0); CmdType byte packing
`ack_type` in bits 4:0 and the response flag in bit 5; ENC `0x00`; three reserved
zero bytes; fixed sequence number `1` as two little-endian bytes; CRC16 of the
ten header bytes; `[cmd_set][cmd_id][payload]`; CRC32 of everything preceding it. -/
def build_dji_frame (cmd_set cmd_id : Nat) (payload : List Nat)
    (is_response : Bool) (ack_type : Nat) : List Nat :=
  let data := cmd_set :: cmd_id :: payload
  let cmd_type_byte := (ack_type &&& 0x1F) ||| (if is_response then 0x20 else 0x00)
  let length := 12 + data.length + 4
  let ver_length := (0 <<< 10) ||| (length &&& 0x03FF)
  let frame_header := [0xAA] ++ u16le ver_length ++
    [cmd_type_byte, 0x00, 0x00, 0x00, 0x00, 0x01, 0x00]
  let frame_header2 := frame_header ++ u16le (ccrc16 frame_header 0x3AA3)
  let full_frame := frame_header2 ++ data
  full_frame ++ u32le (ccrc32 full_frame 0x3AA3)

/-- `Osmo360.parse_dji_frame(data)`; each `raise ValueError` becomes the
corresponding `FrameError`. -/
def parse_dji_frame (data : List Nat) : Except FrameError ParsedFrame :=
  if data.length < 16 then .error .tooShort
  else if data.getD 0 0 ≠ 0xAA then .error .badSof
  else
    let ver_length := fromLE (pySlice data 1 3)
    let version := (ver_length >>> 10) &&& 0x3F
    let length := ver_length &&& 0x3FF
    if data.length ≠ length then .error .lengthMismatch
    else
      let cmd_type := data.getD 3 0
      let frame_type := (cmd_type >>> 5) &&& 0x01
      let ack_type := cmd_type &&& 0x1F
      let enc := data.getD 4 0
      let seq := fromLE (pySlice data 8 10)
      let crc16_calculated := ccrc16 (pySlice data 0 10) 0x3AA3
      let crc16_received := fromLE (pySlice data 10 12)
      if crc16_calculated ≠ crc16_received then .error .crc16Mismatch
      else
        let data_end := length - 4
        let data_payload := pySlice data 12 data_end
        let crc32_calculated := ccrc32 (pySlice data 0 data_end) 0x3AA3
        let crc32_received := fromLE (pySlice data data_end length)
        if crc32_calculated ≠ crc32_received then .error .crc32Mismatch
        else if data_payload.length < 2 then .error .dataTooShort
        else .ok
          { version := version
            length := length
            frame_type := frame_type
            ack_type := ack_type
            enc := enc
            seq := seq
            crc16 := crc16_received
            crc32 := crc32_received
            cmd_set := data_payload.getD 0 0
            cmd_id := data_payload.getD 1 0
            data := data_payload.drop 2 }

/-! ## Camera status enumerations

Each Python `Enum` subclass has a `_missing_` classmethod returning `UNKNOWN`,
so construction from a raw value is total.  `ofValue` is the constructor
`Enum(value)`, `val` the `.value` attribute (`-1` for `UNKNOWN`). -/

/-- `CameraMode`. -/
inductive CameraMode
  | PANO_VIDEO | HYPERLAPSE | SELFIE | PANO_PHOTO | BOOST_VIDEO | VORTEX
  | PANO_SUPER_NIGHT | SINGLE_LENS_SUPER_NIGHT | UNKNOWN
  deriving DecidableEq, Repr

/-- `CameraMode(value)`. -/
def CameraMode.ofValue : Nat → CameraMode
  | 0x38 => .PANO_VIDEO
  | 0x3A => .HYPERLAPSE
  | 0x3C => .SELFIE
  | 0x3F => .PANO_PHOTO
  | 0x41 => .BOOST_VIDEO
  | 0x43 => .VORTEX
  | 0x44 => .PANO_SUPER_NIGHT
  | 0x4A => .SINGLE_LENS_SUPER_NIGHT
  | _ => .UNKNOWN

/-- `CameraMode(...).value`. -/
def CameraMode.val : CameraMode → Int
  | .PANO_VIDEO => 0x38
  | .HYPERLAPSE => 0x3A
  | .SELFIE => 0x3C
  | .PANO_PHOTO => 0x3F
  | .BOOST_VIDEO => 0x41
  | .VORTEX => 0x43
  | .PANO_SUPER_NIGHT => 0x44
  | .SINGLE_LENS_SUPER_NIGHT => 0x4A
  | .UNKNOWN => -1

/-- `ViewStatus`. -/
inductive ViewStatus
  | SCREEN_OFF | LIVE_STREAMING | PLAYBACK | PHOTO_OR_RECORDING | PRE_RECORDING | UNKNOWN
  deriving DecidableEq, Repr

/-- `ViewStatus(value)`. -/
def ViewStatus.ofValue : Nat → ViewStatus
  | 0x00 => .SCREEN_OFF
  | 0x01 => .LIVE_STREAMING
  | 0x02 => .PLAYBACK
  | 0x03 => .PHOTO_OR_RECORDING
  | 0x05 => .PRE_RECORDING
  | _ => .UNKNOWN

/-- `ViewStatus(...).value`. -/
def ViewStatus.val : ViewStatus → Int
  | .SCREEN_OFF => 0x00
  | .LIVE_STREAMING => 0x01
  | .PLAYBACK => 0x02
  | .PHOTO_OR_RECORDING => 0x03
  | .PRE_RECORDING => 0x05
  | .UNKNOWN => -1

/-- `VideoResolution`. -/
inductive VideoResolution
  | RES_1080P | RES_4K | RES_27K | RES_1080P_9_16 | RES_27K_4_3 | RES_4K_4_3
  | RES_4K_9_16 | RES_UW_30MP | RES_W_20MP | RES_STD_12MP | UNKNOWN
  deriving DecidableEq, Repr

/-- `VideoResolution(value)`. -/
def VideoResolution.ofValue : Nat → VideoResolution
  | 10 => .RES_1080P
  | 16 => .RES_4K
  | 45 => .RES_27K
  | 66 => .RES_1080P_9_16
  | 95 => .RES_27K_4_3
  | 103 => .RES_4K_4_3
  | 109 => .RES_4K_9_16
  | 4 => .RES_UW_30MP
  | 3 => .RES_W_20MP
  | 2 => .RES_STD_12MP
  | _ => .UNKNOWN

/-- `VideoResolution(...).value`. -/
def VideoResolution.val : VideoResolution → Int
  | .RES_1080P => 10
  | .RES_4K => 16
  | .RES_27K => 45
  | .RES_1080P_9_16 => 66
  | .RES_27K_4_3 => 95
  | .RES_4K_4_3 => 103
  | .RES_4K_9_16 => 109
  | .RES_UW_30MP => 4
  | .RES_W_20MP => 3
  | .RES_STD_12MP => 2
  | .UNKNOWN => -1

/-- `FPSIdx`. -/
inductive FPSIdx
  | FPS_24 | FPS_25 | FPS_30 | FPS_48 | FPS_50 | FPS_60 | FPS_100 | FPS_120
  | FPS_200 | FPS_240 | UNKNOWN
  deriving DecidableEq, Repr

/-- `FPSIdx(value)`. -/
def FPSIdx.ofValue : Nat → FPSIdx
  | 1 => .FPS_24
  | 2 => .FPS_25
  | 3 => .FPS_30
  | 4 => .FPS_48
  | 5 => .FPS_50
  | 6 => .FPS_60
  | 10 => .FPS_100
  | 7 => .FPS_120
  | 19 => .FPS_200
  | 8 => .FPS_240
  | _ => .UNKNOWN

/-- `FPSIdx(...).value`. -/
def FPSIdx.val : FPSIdx → Int
  | .FPS_24 => 1
  | .FPS_25 => 2
  | .FPS_30 => 3
  | .FPS_48 => 4
  | .FPS_50 => 5
  | .FPS_60 => 6
  | .FPS_100 => 10
  | .FPS_120 => 7
  | .FPS_200 => 19
  | .FPS_240 => 8
  | .UNKNOWN => -1

/-- `EISMode`. -/
inductive EISMode
  | OFF | RS | HS | RS_P | HB | UNKNOWN
  deriving DecidableEq, Repr

/-- `EISMode(value)`. -/
def EISMode.ofValue : Nat → EISMode
  | 0 => .OFF
  | 1 => .RS
  | 2 => .HS
  | 3 => .RS_P
  | 4 => .HB
  | _ => .UNKNOWN

/-- `EISMode(...).value`. -/
def EISMode.val : EISMode → Int
  | .OFF => 0
  | .RS => 1
  | .HS => 2
  | .RS_P => 3
  | .HB => 4
  | .UNKNOWN => -1

/-- `PhotoRatio`. -/
inductive PhotoRatio
  | RATIO_4_3 | RATIO_16_9 | UNKNOWN
  deriving DecidableEq, Repr

/-- `PhotoRatio(value)`. -/
def PhotoRatio.ofValue : Nat → PhotoRatio
  | 0 => .RATIO_4_3
  | 1 => .RATIO_16_9
  | _ => .UNKNOWN

/-- `PhotoRatio(...).value`. -/
def PhotoRatio.val : PhotoRatio → Int
  | .RATIO_4_3 => 0
  | .RATIO_16_9 => 1
  | .UNKNOWN => -1

/-- `UserMode`. -/
inductive UserMode
  | GENERAL | CUSTOM_1 | CUSTOM_2 | CUSTOM_3 | CUSTOM_4 | CUSTOM_5 | UNKNOWN
  deriving DecidableEq, Repr

/-- `UserMode(value)`. -/
def UserMode.ofValue : Nat → UserMode
  | 0 => .GENERAL
  | 1 => .CUSTOM_1
  | 2 => .CUSTOM_2
  | 3 => .CUSTOM_3
  | 4 => .CUSTOM_4
  | 5 => .CUSTOM_5
  | _ => .UNKNOWN

/-- `UserMode(...).value`. -/
def UserMode.val : UserMode → Int
  | .GENERAL => 0
  | .CUSTOM_1 => 1
  | .CUSTOM_2 => 2
  | .CUSTOM_3 => 3
  | .CUSTOM_4 => 4
  | .CUSTOM_5 => 5
  | .UNKNOWN => -1

/-- `PowerMode`. -/
inductive PowerMode
  | NORMAL | SLEEP | UNKNOWN
  deriving DecidableEq, Repr

/-- `PowerMode(value)`. -/
def PowerMode.ofValue : Nat → PowerMode
  | 0 => .NORMAL
  | 3 => .SLEEP
  | _ => .UNKNOWN

/-- `PowerMode(...).value`. -/
def PowerMode.val : PowerMode → Int
  | .NORMAL => 0
  | .SLEEP => 3
  | .UNKNOWN => -1

/-- `TempOver`. -/
inductive TempOver
  | NORMAL | WARNING | TOO_HIGH | OVERHEAT | UNKNOWN
  deriving DecidableEq, Repr

/-- `TempOver(value)`. -/
def TempOver.ofValue : Nat → TempOver
  | 0 => .NORMAL
  | 1 => .WARNING
  | 2 => .TOO_HIGH
  | 3 => .OVERHEAT
  | _ => .UNKNOWN

/-- `TempOver(...).value`. -/
def TempOver.val : TempOver → Int
  | .NORMAL => 0
  | .WARNING => 1
  | .TOO_HIGH => 2
  | .OVERHEAT => 3
  | .UNKNOWN => -1

/-! ## Telemetry decoder (`CameraStatus.parseFromData`) -/

/-- `struct.unpack('<H', bs)[0]`: requires exactly two bytes, else `struct.error`. -/
def unpack_H : List Nat → Option Nat
  | [a, b] => some (a + 256 * b)
  | _ => none

/-- `struct.unpack('<I', bs)[0]`: requires exactly four bytes, else `struct.error`. -/
def unpack_I : List Nat → Option Nat
  | [a, b, c, d] => some (a + 256 * b + 65536 * c + 16777216 * d)
  | _ => none

/-- The fields `CameraStatus.parseFromData` assigns. -/
structure CameraStatus where
  camera_mode : CameraMode
  view_status : ViewStatus
  video_resolution : VideoResolution
  fps_idx : FPSIdx
  eis_mode : EISMode
  record_time : Nat
  photo_ratio : PhotoRatio
  real_time_countdown : Nat
  timelaps_interval : Nat
  timelaps_duration : Nat
  remain_capacity : Nat
  remain_photo_num : Nat
  remain_time : Nat
  user_mode : UserMode
  power_mode : PowerMode
  temp_over : TempOver
  photo_countdown_ms : Nat
  loop_record_sends : Nat
  camera_bat_percentage : Nat
  data : List Nat
  deriving DecidableEq, Repr

/-- `Option.bind`, restated (the Lean compiler mishandles long inlined
`Option.bind` chains; proofs unfold this by cases). -/
def obind {A B : Type} : Option A → (A → Option B) → Option B
  | none, _ => none
  | some a, f => f a

/-- `CameraStatus.parseFromData(data)`; a raised `IndexError` or `struct.error`
becomes `none`.  Reads happen in the source's statement order. -/
def CameraStatus.parseFromData (data : List Nat) : Option CameraStatus :=
  obind data[0]? fun b0 =>
  obind data[1]? fun b1 =>
  obind data[2]? fun b2 =>
  obind data[3]? fun b3 =>
  obind data[4]? fun b4 =>
  obind (unpack_H (pySlice data 5 7)) fun record_time =>
  obind data[8]? fun b8 =>
  obind (unpack_H (pySlice data 9 11)) fun real_time_countdown =>
  obind (unpack_H (pySlice data 11 13)) fun timelaps_interval =>
  obind (unpack_H (pySlice data 13 15)) fun timelaps_duration =>
  obind (unpack_I (pySlice data 15 19)) fun remain_capacity =>
  obind (unpack_I (pySlice data 19 23)) fun remain_photo_num =>
  obind (unpack_I (pySlice data 23 27)) fun remain_time =>
  obind data[28]? fun b28 =>
  obind data[29]? fun b29 =>
  obind data[30]? fun b30 =>
  obind (unpack_I (pySlice data 31 35)) fun photo_countdown_ms =>
  obind (unpack_H (pySlice data 35 37)) fun loop_record_sends =>
  obind data[37]? fun b37 =>
  some
    { camera_mode := CameraMode.ofValue b0
      view_status := ViewStatus.ofValue b1
      video_resolution := VideoResolution.ofValue b2
      fps_idx := FPSIdx.ofValue b3
      eis_mode := EISMode.ofValue b4
      record_time := record_time
      photo_ratio := PhotoRatio.ofValue b8
      real_time_countdown := real_time_countdown
      timelaps_interval := timelaps_interval
      timelaps_duration := timelaps_duration
      remain_capacity := remain_capacity
      remain_photo_num := remain_photo_num
      remain_time := remain_time
      user_mode := UserMode.ofValue b28
      power_mode := PowerMode.ofValue b29
      temp_over := TempOver.ofValue b30
      photo_countdown_ms := photo_countdown_ms
      loop_record_sends := loop_record_sends
      camera_bat_percentage := b37
      data := data }

/-! ## Telemetry subscription (`Osmo360.subscribeCameraStatus` /
`Osmo360.unSubscribeCameraStatus`) -/

/-- A `(cmd_set, cmd_id, payload)` triple handed to `send_dji_command`. -/
structure SentCommand where
  cmd_set : Nat
  cmd_id : Nat
  payload : List Nat
  deriving DecidableEq, Repr

/-- The mutable state the subscription methods touch: the callback registry
`cameraStatusCallbacks` (callbacks identified by `Nat` tokens) together with
the trace of commands issued so far. -/
structure SubscriberState where
  cameraStatusCallbacks : List Nat
  sentCommands : List SentCommand
  deriving DecidableEq, Repr

/-- `Osmo360.subscribeCameraStatus(callback)`: unconditionally sends
`(0x1D, 0x05)` with payload `struct.pack("<BB4s", 0x02, 0x14, b"\x00"*4)`,
then appends the callback to the registry. -/
def subscribeCameraStatus (st : SubscriberState) (cb : Nat) : SubscriberState :=
  { cameraStatusCallbacks := st.cameraStatusCallbacks ++ [cb]
    sentCommands := st.sentCommands ++ [⟨0x1D, 0x05, [0x02, 0x14, 0, 0, 0, 0]⟩] }

/-- `Osmo360.unSubscribeCameraStatus(callback)`: `list.remove` drops the first
occurrence (raising `ValueError`, modelled `none`, when absent); when the
registry becomes empty it sends `(0x1D, 0x05)` with payload
`struct.pack("<BB4s", 0x00, 0x14, b"\x00"*4)`. -/
def unSubscribeCameraStatus (st : SubscriberState) (cb : Nat) :
    Option SubscriberState :=
  if cb ∈ st.cameraStatusCallbacks then
    let cbs := st.cameraStatusCallbacks.erase cb
    if cbs.length = 0 then
      some { cameraStatusCallbacks := cbs
             sentCommands := st.sentCommands ++ [⟨0x1D, 0x05, [0x00, 0x14, 0, 0, 0, 0]⟩] }
    else
      some { cameraStatusCallbacks := cbs, sentCommands := st.sentCommands }
  else none

/-! ## Handshake: the approval wait inside `Osmo360.connect` (lines 372-401) -/

/-- The shared mutable state `send_dji_command` touches: the Bluetooth link
flag, the single pending-response slot `last_response_frame`, and the shared
`response_received` event. -/
structure ChannelState where
  connected : Bool
  last_response_frame : Option ParsedFrame
  response_event : Bool
  deriving DecidableEq, Repr

/-- The `raise Exception("Bluetooth not connected")` at the top of
`send_dji_command`. -/
inductive ChannelError
  | notConnected
  deriving DecidableEq, Repr

/-- `Osmo360.send_dji_command(cmd_set, cmd_id, payload, wait_for_response=True,
timeout=5, is_response=False)`.  Inbound traffic is modelled by two
parameters: `during_write` is a response frame the notification handler
delivers while the GATT write is awaited, and `arrival` is a response frame
delivered during the timed wait (`none` means `asyncio.wait_for` times out,
which the code turns into a printed message and `return None`).  The handler
(`_notification_handler`) stores a response frame in `last_response_frame`
and sets `response_received`. -/
def send_dji_command (st : ChannelState) (cmd_set cmd_id : Nat)
    (payload : List Nat) (wait_for_response : Bool) (is_response : Bool)
    (during_write : Option ParsedFrame) (arrival : Option ParsedFrame) :
    Except ChannelError (Option ParsedFrame × ChannelState) :=
  if st.connected = false then .error .notConnected
  else
    let wait := if is_response then false else wait_for_response
    let st1 : ChannelState :=
      { st with
        last_response_frame := during_write
        response_event := if during_write.isSome then true else st.response_event }
    match st1.last_response_frame with
    | some f => .ok (some f, st1)
    | none =>
      if wait then
        match arrival with
        | some f =>
          .ok (some f, { st1 with last_response_frame := some f, response_event := true })
        | none =>
          .ok (none, { st1 with response_event := false })
      else .ok (none, st1)

/-! ## Camera operations (`Osmo360.setMode` / `startRecording` /
`stopRecording` / `grabImage`) -/

/-- A Python value appearing in the operations' success test. -/
inductive PyValue
  | pybytes (bs : List Nat)
  | pyint (n : Int)
  deriving DecidableEq, Repr

/-- Python `==` on these values.  `bytes.__eq__(int)` and `int.__eq__(bytes)`
are both `NotImplemented`, so comparing a bytes object with an integer always
evaluates to `False`. -/
def pyEq : PyValue → PyValue → Bool
  | .pybytes a, .pybytes b => a == b
  | .pyint a, .pyint b => a == b
  | _, _ => false

/-- `struct.pack("<IB4s", device_id, action, b"\x00\x00\x00\x00")`. -/
def pack_IB4s (device_id action : Nat) : List Nat :=
  u32le device_id ++ [action] ++ [0, 0, 0, 0]

/-- The `(cmd_set, cmd_id, payload, wait_for_response)` tuple an operation
hands to `send_dji_command`. -/
structure CommandSpec where
  cmd_set : Nat
  cmd_id : Nat
  payload : List Nat
  wait_for_response : Bool
  deriving DecidableEq, Repr

/-- The command `Osmo360.setMode(mode)` sends (line 449-450). -/
def setMode_command (device_id : Nat) (mode : CameraMode) : CommandSpec :=
  { cmd_set := 0x1D, cmd_id := 0x04
    payload := u32le device_id ++ [(mode.val).toNat] ++ [0, 0, 0, 0]
    wait_for_response := true }

/-- The command `Osmo360.startRecording()` sends (line 455-456). -/
def startRecording_command (device_id : Nat) : CommandSpec :=
  { cmd_set := 0x1D, cmd_id := 0x03, payload := pack_IB4s device_id 0x00
    wait_for_response := true }

/-- The command `Osmo360.stopRecording()` sends (line 461-462). -/
def stopRecording_command (device_id : Nat) : CommandSpec :=
  { cmd_set := 0x1D, cmd_id := 0x03, payload := pack_IB4s device_id 0x01
    wait_for_response := true }

/-- The command `Osmo360.grabImage()` sends (line 467-468). -/
def grabImage_command (device_id : Nat) : CommandSpec :=
  { cmd_set := 0x1D, cmd_id := 0x03, payload := pack_IB4s device_id 0x00
    wait_for_response := true }

/-- `Osmo360.setMode`'s return expression
`resp is not None and resp['data'] == 0x00` (line 451). -/
def setMode_result (resp : Option ParsedFrame) : Bool :=
  match resp with
  | none => false
  | some r => pyEq (.pybytes r.data) (.pyint 0x00)

/-- `Osmo360.startRecording`'s return expression (line 457). -/
def startRecording_result (resp : Option ParsedFrame) : Bool :=
  match resp with
  | none => false
  | some r => pyEq (.pybytes r.data) (.pyint 0x00)

/-- `Osmo360.stopRecording`'s return expression (line 463). -/
def stopRecording_result (resp : Option ParsedFrame) : Bool :=
  match resp with
  | none => false
  | some r => pyEq (.pybytes r.data) (.pyint 0x00)

/-- `Osmo360.grabImage`'s return expression (line 469). -/
def grabImage_result (resp : Option ParsedFrame) : Bool :=
  match resp with
  | none => false
  | some r => pyEq (.pybytes r.data) (.pyint 0x00)

/-! ## Proof infrastructure -/

/-- Common shape of `crc16_update` (table `DJI_CRC16_TABLE`, `w = 16`) and
`crc32_update` (table `DJI_CRC32_TABLE`, `w = 32`): one table-driven CRC step
over a `w`-bit word. -/
def crc_step_gen (T : List Nat) (w : Nat) (c b : Nat) : Nat :=
  (T.getD ((c ^^^ b) &&& 0xFF) 0 ^^^ (c >>> 8)) &&& (2 ^ w - 1)

/-- The ten header bytes (local variable `frame_header` of `build_dji_frame`),
as a function of the payload length `n`. -/
def frame_header10 (n : Nat) (is_response : Bool) (ack_type : Nat) : List Nat :=
  [0xAA] ++ u16le ((0 <<< 10) ||| ((12 + (n + 2) + 4) &&& 0x03FF)) ++
  [(ack_type &&& 0x1F) ||| (if is_response then 0x20 else 0x00),
   0x00, 0x00, 0x00, 0x00, 0x01, 0x00]

/-!
## Theorems

Everything from here on is proof.  The development is ordered: generic facts
about table-driven CRC steps (culminating in single-byte tamper detection),
facts about `build_dji_frame` / `parse_dji_frame`, then the claim theorems.
-/

/-! ### Generic CRC-step facts -/

theorem and255_lt (x : Nat) : x &&& 0xFF < 256 := by
  have h : x &&& 0xFF ≤ 0xFF := Nat.and_le_right
  omega

theorem and255_eq_self {x : Nat} (h : x < 256) : x &&& 0xFF = x := by
  have h8 : (0xFF : Nat) = 2 ^ 8 - 1 := by norm_num
  rw [h8]
  exact Nat.and_pow_two_sub_one_of_lt_two_pow (by norm_num at h ⊢; omega)

theorem xor_cancel_left {a b c : Nat} (h : a ^^^ b = a ^^^ c) : b = c := by
  have h2 := congrArg (fun x => a ^^^ x) h
  simpa [← Nat.xor_assoc, Nat.xor_self, Nat.zero_xor] using h2

theorem xor_cancel_right {a b c : Nat} (h : a ^^^ c = b ^^^ c) : a = b := by
  have h2 := congrArg (fun x => x ^^^ c) h
  simpa [Nat.xor_assoc, Nat.xor_self, Nat.xor_zero] using h2

theorem shiftRight_xor_distrib (a b k : Nat) :
    (a ^^^ b) >>> k = (a >>> k) ^^^ (b >>> k) := by
  apply Nat.eq_of_testBit_eq
  intro i
  simp [Nat.testBit_shiftRight, Nat.testBit_xor]

theorem byte_decomp (c : Nat) : c = 256 * (c >>> 8) + (c &&& 0xFF) := by
  have h8 : (0xFF : Nat) = 2 ^ 8 - 1 := by norm_num
  rw [h8, Nat.and_pow_two_sub_one_eq_mod, Nat.shiftRight_eq_div_pow]
  norm_num
  omega

theorem crc_step_gen_lt (T : List Nat) (w : Nat) (c b : Nat) :
    crc_step_gen T w c b < 2 ^ w := by
  have h1 : crc_step_gen T w c b ≤ 2 ^ w - 1 := Nat.and_le_right
  have h2 : 0 < 2 ^ w := Nat.pos_pow_of_pos w (by omega)
  omega

theorem crc_step_gen_eq_xor (T : List Nat) (w : Nat)
    (hT : ∀ i, i < 256 → T.getD i 0 < 2 ^ w) (c b : Nat) (hc : c < 2 ^ w) :
    crc_step_gen T w c b = T.getD ((c ^^^ b) &&& 0xFF) 0 ^^^ (c >>> 8) := by
  unfold crc_step_gen
  apply Nat.and_pow_two_sub_one_of_lt_two_pow
  apply Nat.xor_lt_two_pow (hT _ (and255_lt _))
  exact Nat.lt_of_le_of_lt (Nat.shiftRight_eq_div_pow c 8 ▸ Nat.div_le_self c 256) hc

theorem crc_step_gen_hi (T : List Nat) (w : Nat) (hw : 8 ≤ w)
    (hT : ∀ i, i < 256 → T.getD i 0 < 2 ^ w) (c b : Nat) (hc : c < 2 ^ w) :
    crc_step_gen T w c b >>> (w - 8) = T.getD ((c ^^^ b) &&& 0xFF) 0 >>> (w - 8) := by
  rw [crc_step_gen_eq_xor T w hT c b hc, shiftRight_xor_distrib]
  have h1 : (c >>> 8) >>> (w - 8) = 0 := by
    rw [← Nat.shiftRight_add]
    have h2 : 8 + (w - 8) = w := by omega
    rw [h2, Nat.shiftRight_eq_div_pow]
    exact Nat.div_eq_of_lt hc
  rw [h1, Nat.xor_zero]

theorem crc_step_gen_injc (T : List Nat) (w : Nat) (hw : 8 ≤ w)
    (hT : ∀ i, i < 256 → T.getD i 0 < 2 ^ w)
    (hinj : ∀ i j, i < 256 → j < 256 →
      T.getD i 0 >>> (w - 8) = T.getD j 0 >>> (w - 8) → i = j)
    {c1 c2 b : Nat} (h1 : c1 < 2 ^ w) (h2 : c2 < 2 ^ w)
    (he : crc_step_gen T w c1 b = crc_step_gen T w c2 b) : c1 = c2 := by
  have hidx : (c1 ^^^ b) &&& 0xFF = (c2 ^^^ b) &&& 0xFF := by
    apply hinj _ _ (and255_lt _) (and255_lt _)
    rw [← crc_step_gen_hi T w hw hT c1 b h1, ← crc_step_gen_hi T w hw hT c2 b h2, he]
  have he1 := crc_step_gen_eq_xor T w hT c1 b h1
  have he2 := crc_step_gen_eq_xor T w hT c2 b h2
  rw [he1, he2, hidx] at he
  have hshift : c1 >>> 8 = c2 >>> 8 := xor_cancel_left he
  have hlow : c1 &&& 0xFF = c2 &&& 0xFF := by
    rw [Nat.and_xor_distrib_right, Nat.and_xor_distrib_right] at hidx
    exact xor_cancel_right hidx
  have d1 := byte_decomp c1
  have d2 := byte_decomp c2
  omega

theorem crc_step_gen_injb (T : List Nat) (w : Nat) (hw : 8 ≤ w)
    (hT : ∀ i, i < 256 → T.getD i 0 < 2 ^ w)
    (hinj : ∀ i j, i < 256 → j < 256 →
      T.getD i 0 >>> (w - 8) = T.getD j 0 >>> (w - 8) → i = j)
    {c b1 b2 : Nat} (hb1 : b1 < 256) (hb2 : b2 < 256) (hc : c < 2 ^ w)
    (he : crc_step_gen T w c b1 = crc_step_gen T w c b2) : b1 = b2 := by
  have hidx : (c ^^^ b1) &&& 0xFF = (c ^^^ b2) &&& 0xFF := by
    apply hinj _ _ (and255_lt _) (and255_lt _)
    rw [← crc_step_gen_hi T w hw hT c b1 hc, ← crc_step_gen_hi T w hw hT c b2 hc, he]
  rw [Nat.and_xor_distrib_right, Nat.and_xor_distrib_right,
    and255_eq_self hb1, and255_eq_self hb2] at hidx
  exact xor_cancel_left hidx

theorem crc_fold_gen_lt (T : List Nat) (w : Nat) (l : List Nat) :
    ∀ c, c < 2 ^ w → List.foldl (crc_step_gen T w) c l < 2 ^ w := by
  induction l with
  | nil => intro c hc; simpa using hc
  | cons b rest ih =>
    intro c hc
    rw [List.foldl_cons]
    exact ih _ (crc_step_gen_lt T w c b)

theorem crc_fold_gen_ne (T : List Nat) (w : Nat) (hw : 8 ≤ w)
    (hT : ∀ i, i < 256 → T.getD i 0 < 2 ^ w)
    (hinj : ∀ i j, i < 256 → j < 256 →
      T.getD i 0 >>> (w - 8) = T.getD j 0 >>> (w - 8) → i = j)
    (l : List Nat) :
    ∀ c1 c2, c1 < 2 ^ w → c2 < 2 ^ w → c1 ≠ c2 →
      List.foldl (crc_step_gen T w) c1 l ≠ List.foldl (crc_step_gen T w) c2 l := by
  induction l with
  | nil => intro c1 c2 _ _ hne; simpa using hne
  | cons b rest ih =>
    intro c1 c2 h1 h2 hne
    rw [List.foldl_cons, List.foldl_cons]
    refine ih _ _ (crc_step_gen_lt T w c1 b) (crc_step_gen_lt T w c2 b) ?_
    intro he
    exact hne (crc_step_gen_injc T w hw hT hinj h1 h2 he)

/-- Single-byte tamper detection for a generic table-driven CRC: two inputs
agreeing everywhere except at one position (where the bytes differ and are
in byte range) have different checksums. -/
theorem crc_fold_gen_single_diff (T : List Nat) (w : Nat) (hw : 8 ≤ w)
    (hT : ∀ i, i < 256 → T.getD i 0 < 2 ^ w)
    (hinj : ∀ i j, i < 256 → j < 256 →
      T.getD i 0 >>> (w - 8) = T.getD j 0 >>> (w - 8) → i = j)
    (pre suf : List Nat) {b1 b2 seed : Nat}
    (hb1 : b1 < 256) (hb2 : b2 < 256) (hne : b1 ≠ b2) (hs : seed < 2 ^ w) :
    List.foldl (crc_step_gen T w) seed (pre ++ b1 :: suf) ≠
      List.foldl (crc_step_gen T w) seed (pre ++ b2 :: suf) := by
  rw [List.foldl_append, List.foldl_append, List.foldl_cons, List.foldl_cons]
  have hc : List.foldl (crc_step_gen T w) seed pre < 2 ^ w :=
    crc_fold_gen_lt T w pre seed hs
  refine crc_fold_gen_ne T w hw hT hinj suf _ _
    (crc_step_gen_lt T w _ b1) (crc_step_gen_lt T w _ b2) ?_
  intro he
  exact hne (crc_step_gen_injb T w hw hT hinj hb1 hb2 hc he)

/-! ### Instantiation to the two DJI tables -/

theorem getD_eq_getElem_of_lt (l : List Nat) (i : Nat) (h : i < l.length) :
    l.getD i 0 = l[i] := by
  simp [List.getD_eq_getElem?_getD, List.getElem?_eq_getElem h]

theorem DJI_CRC16_TABLE_length : DJI_CRC16_TABLE.length = 256 := rfl

theorem DJI_CRC32_TABLE_length : DJI_CRC32_TABLE.length = 256 := rfl

theorem DJI_CRC16_TABLE_lt : ∀ i, i < 256 → DJI_CRC16_TABLE.getD i 0 < 2 ^ 16 := by decide

theorem DJI_CRC32_TABLE_lt : ∀ i, i < 256 → DJI_CRC32_TABLE.getD i 0 < 2 ^ 32 := by decide

theorem DJI_CRC16_TABLE_hi_nodup :
    (DJI_CRC16_TABLE.map (fun x => x >>> 8)).Nodup := by decide

theorem DJI_CRC32_TABLE_hi_nodup :
    (DJI_CRC32_TABLE.map (fun x => x >>> 24)).Nodup := by decide

theorem table_hi_inj {T : List Nat} {s : Nat}
    (hnd : (T.map (fun x => x >>> s)).Nodup) :
    ∀ i j, i < T.length → j < T.length →
      T.getD i 0 >>> s = T.getD j 0 >>> s → i = j := by
  intro i j hi hj h
  rw [getD_eq_getElem_of_lt T i hi, getD_eq_getElem_of_lt T j hj] at h
  have hi' : i < (T.map (fun x => x >>> s)).length := by simpa using hi
  have hj' : j < (T.map (fun x => x >>> s)).length := by simpa using hj
  have h2 : (T.map (fun x => x >>> s))[i] = (T.map (fun x => x >>> s))[j] := by
    rw [List.getElem_map _, List.getElem_map _]
    exact h
  exact (hnd.getElem_inj_iff).mp h2

theorem DJI_CRC16_TABLE_hi_inj : ∀ i j, i < 256 → j < 256 →
    DJI_CRC16_TABLE.getD i 0 >>> (16 - 8) = DJI_CRC16_TABLE.getD j 0 >>> (16 - 8) →
    i = j := by
  have h := table_hi_inj DJI_CRC16_TABLE_hi_nodup
  rw [DJI_CRC16_TABLE_length] at h
  simpa using h

theorem DJI_CRC32_TABLE_hi_inj : ∀ i j, i < 256 → j < 256 →
    DJI_CRC32_TABLE.getD i 0 >>> (32 - 8) = DJI_CRC32_TABLE.getD j 0 >>> (32 - 8) →
    i = j := by
  have h := table_hi_inj DJI_CRC32_TABLE_hi_nodup
  rw [DJI_CRC32_TABLE_length] at h
  simpa using h

theorem crc16_update_eq_gen (c b : Nat) :
    crc16_update c b = crc_step_gen DJI_CRC16_TABLE 16 c b := by
  unfold crc16_update crc_step_gen
  norm_num

theorem crc32_update_eq_gen (c b : Nat) :
    crc32_update c b = crc_step_gen DJI_CRC32_TABLE 32 c b := by
  unfold crc32_update crc_step_gen
  norm_num

theorem ccrc16_eq_foldl_gen (l : List Nat) :
    ∀ c, ccrc16 l c = List.foldl (crc_step_gen DJI_CRC16_TABLE 16) c l := by
  simp only [ccrc16]
  induction l with
  | nil => intro c; rfl
  | cons b rest ih =>
    intro c
    rw [List.foldl_cons, ← crc16_update_eq_gen]
    exact ih (crc16_update c b)

theorem ccrc32_eq_foldl_gen (l : List Nat) :
    ∀ c, ccrc32 l c = List.foldl (crc_step_gen DJI_CRC32_TABLE 32) c l := by
  simp only [ccrc32]
  induction l with
  | nil => intro c; rfl
  | cons b rest ih =>
    intro c
    rw [List.foldl_cons, ← crc32_update_eq_gen]
    exact ih (crc32_update c b)

theorem ccrc16_loop_eq_foldl (l : List Nat) :
    ∀ c, crc16_loop c l = List.foldl crc16_update c l := by
  induction l with
  | nil => intro c; rfl
  | cons b rest ih =>
    intro c
    rw [List.foldl_cons]
    exact ih (crc16_update c b)

theorem ccrc32_loop_eq_foldl (l : List Nat) :
    ∀ c, crc32_loop c l = List.foldl crc32_update c l := by
  induction l with
  | nil => intro c; rfl
  | cons b rest ih =>
    intro c
    rw [List.foldl_cons]
    exact ih (crc32_update c b)

theorem ccrc16_lt (l : List Nat) {c : Nat} (hc : c < 65536) : ccrc16 l c < 65536 := by
  have h := crc_fold_gen_lt DJI_CRC16_TABLE 16 l c (by norm_num at hc ⊢; omega)
  rw [← ccrc16_eq_foldl_gen] at h
  norm_num at h
  exact h

theorem ccrc32_lt (l : List Nat) {c : Nat} (hc : c < 4294967296) :
    ccrc32 l c < 4294967296 := by
  have h := crc_fold_gen_lt DJI_CRC32_TABLE 32 l c (by norm_num at hc ⊢; omega)
  rw [← ccrc32_eq_foldl_gen] at h
  norm_num at h
  exact h

/-- Single-byte tamper detection for `Osmo360._ccrc16`. -/
theorem ccrc16_single_diff (pre suf : List Nat) {b1 b2 seed : Nat}
    (hb1 : b1 < 256) (hb2 : b2 < 256) (hne : b1 ≠ b2) (hs : seed < 65536) :
    ccrc16 (pre ++ b1 :: suf) seed ≠ ccrc16 (pre ++ b2 :: suf) seed := by
  rw [ccrc16_eq_foldl_gen, ccrc16_eq_foldl_gen]
  exact crc_fold_gen_single_diff DJI_CRC16_TABLE 16 (by omega) DJI_CRC16_TABLE_lt
    DJI_CRC16_TABLE_hi_inj pre suf hb1 hb2 hne (by norm_num at hs ⊢; omega)

/-- Single-byte tamper detection for `Osmo360._ccrc32`. -/
theorem ccrc32_single_diff (pre suf : List Nat) {b1 b2 seed : Nat}
    (hb1 : b1 < 256) (hb2 : b2 < 256) (hne : b1 ≠ b2) (hs : seed < 4294967296) :
    ccrc32 (pre ++ b1 :: suf) seed ≠ ccrc32 (pre ++ b2 :: suf) seed := by
  rw [ccrc32_eq_foldl_gen, ccrc32_eq_foldl_gen]
  exact crc_fold_gen_single_diff DJI_CRC32_TABLE 32 (by omega) DJI_CRC32_TABLE_lt
    DJI_CRC32_TABLE_hi_inj pre suf hb1 hb2 hne (by norm_num at hs ⊢; omega)

/-! ### Frame codec facts -/

theorem frame_header10_length (n : Nat) (ir : Bool) (ack : Nat) :
    (frame_header10 n ir ack).length = 10 := by
  simp [frame_header10, u16le]

theorem build_dji_frame_eq (cs ci : Nat) (pl : List Nat) (ir : Bool) (ack : Nat) :
    build_dji_frame cs ci pl ir ack =
      frame_header10 pl.length ir ack ++
      (u16le (ccrc16 (frame_header10 pl.length ir ack) 0x3AA3) ++
      ((cs :: ci :: pl) ++
      u32le (ccrc32 (frame_header10 pl.length ir ack ++
        (u16le (ccrc16 (frame_header10 pl.length ir ack) 0x3AA3) ++
        (cs :: ci :: pl))) 0x3AA3))) := by
  simp [build_dji_frame, frame_header10, List.append_assoc]

theorem take_prefix_append {l1 l2 : List Nat} {k : Nat} (h : l1.length = k) :
    (l1 ++ l2).take k = l1 := by
  rw [List.take_append_of_le_length (by omega)]
  exact List.take_of_length_le (by omega)

theorem drop_prefix_append {l1 l2 : List Nat} {k : Nat} (h : l1.length = k) :
    (l1 ++ l2).drop k = l2 := by
  rw [List.drop_append_of_le_length (by omega)]
  rw [List.drop_eq_nil_of_le (by omega), List.nil_append]

theorem getD_at_append {l1 l2 : List Nat} {k : Nat} (h : l1.length = k) :
    (l1 ++ l2).getD k 0 = l2.getD 0 0 := by
  subst h
  simp [List.getD_eq_getElem?_getD, List.getElem?_append_right (Nat.le_refl l1.length)]

theorem fromLE_u16le {v : Nat} (h : v < 65536) : fromLE (u16le v) = v := by
  simp [fromLE, u16le]
  omega

theorem fromLE_u32le {v : Nat} (h : v < 4294967296) : fromLE (u32le v) = v := by
  simp [fromLE, u32le]
  omega

theorem ver_length_eq {n : Nat} (hn : n ≤ 1005) :
    (0 <<< 10) ||| ((12 + (n + 2) + 4) &&& 0x03FF) = 18 + n := by
  have h1 : (0 : Nat) <<< 10 = 0 := rfl
  have h2 : (0x03FF : Nat) = 2 ^ 10 - 1 := by norm_num
  rw [h1, h2, Nat.and_pow_two_sub_one_eq_mod, Nat.zero_or]
  have : (12 + (n + 2) + 4) % 2 ^ 10 = 12 + (n + 2) + 4 := Nat.mod_eq_of_lt (by norm_num; omega)
  omega

theorem and_1023_self {m : Nat} (hm : m ≤ 1023) : m &&& 0x03FF = m := by
  have h2 : (0x03FF : Nat) = 2 ^ 10 - 1 := by norm_num
  rw [h2]
  exact Nat.and_pow_two_sub_one_of_lt_two_pow (by norm_num; omega)

theorem cmd_type_facts : ∀ a, a < 32 →
    (a ||| 0x20) < 256 ∧ (a ||| 0x00) < 256 ∧
    (((a ||| 0x20) >>> 5) &&& 0x01 = 1) ∧ (((a ||| 0x00) >>> 5) &&& 0x01 = 0) := by decide

theorem pySlice_eq (l : List Nat) (a b : Nat) : pySlice l a b = (l.drop a).take (b - a) := rfl

/-- C1 roundtrip, general form. -/
theorem parse_build_roundtrip (cs ci : Nat) (pl : List Nat) (ir : Bool) (ack : Nat)
    (hcs : cs < 256) (hci : ci < 256) (hpl : ∀ b ∈ pl, b < 256)
    (hack : ack < 32) (hn : pl.length ≤ 1005) :
    ∃ f, parse_dji_frame (build_dji_frame cs ci pl ir ack) = .ok f ∧
      f.cmd_set = cs ∧ f.cmd_id = ci ∧ f.data = pl ∧
      f.frame_type = (if ir then 1 else 0) := by
  have key := build_dji_frame_eq cs ci pl ir ack
  set H := frame_header10 pl.length ir ack with hH
  set C16 := u16le (ccrc16 H 0x3AA3) with hC16
  set D := cs :: ci :: pl with hD
  set C32 := u32le (ccrc32 (H ++ (C16 ++ D)) 0x3AA3) with hC32
  rw [key]
  set F := H ++ (C16 ++ (D ++ C32)) with hF
  have hHlen : H.length = 10 := frame_header10_length pl.length ir ack
  have hC16len : C16.length = 2 := by rw [hC16]; rfl
  have hDlen : D.length = 2 + pl.length := by rw [hD]; simp; omega
  have hC32len : C32.length = 4 := by rw [hC32]; rfl
  have hFlen : F.length = 18 + pl.length := by
    rw [hF]; simp [hHlen, hC16len, hDlen, hC32len]; omega
  -- SOF
  have hsof : F.getD 0 0 = 0xAA := by
    rw [hF, hH]; rfl
  -- the Ver/Length field
  have hvl13 : pySlice F 1 3 =
      u16le ((0 <<< 10) ||| ((12 + (pl.length + 2) + 4) &&& 0x03FF)) := by
    rw [pySlice_eq]
    have hassoc : F = [0xAA] ++
        (u16le ((0 <<< 10) ||| ((12 + (pl.length + 2) + 4) &&& 0x03FF)) ++
          ([(ack &&& 0x1F) ||| (if ir then 0x20 else 0x00),
            0x00, 0x00, 0x00, 0x00, 0x01, 0x00] ++ (C16 ++ (D ++ C32)))) := by
      rw [hF, hH]
      simp [frame_header10, List.append_assoc]
    rw [hassoc, drop_prefix_append (by rfl)]
    exact take_prefix_append (by rfl)
  have hvlv : fromLE (pySlice F 1 3) = 18 + pl.length := by
    rw [hvl13, ver_length_eq hn]
    exact fromLE_u16le (by omega)
  have hlen1023 : (18 + pl.length) &&& 0x03FF = 18 + pl.length :=
    and_1023_self (by omega)
  -- CmdType byte
  have hct : F.getD 3 0 = (ack &&& 0x1F) ||| (if ir then 0x20 else 0x00) := by
    have hassoc : F = ([0xAA] ++
        u16le ((0 <<< 10) ||| ((12 + (pl.length + 2) + 4) &&& 0x03FF))) ++
          ([(ack &&& 0x1F) ||| (if ir then 0x20 else 0x00),
            0x00, 0x00, 0x00, 0x00, 0x01, 0x00] ++ (C16 ++ (D ++ C32))) := by
      rw [hF, hH]
      simp [frame_header10, List.append_assoc]
    rw [hassoc, getD_at_append (by rfl)]
    rfl
  -- CRC16 field
  have hcrc16calc : pySlice F 0 10 = H := by
    rw [pySlice_eq, List.drop_zero, hF]
    exact take_prefix_append hHlen
  have hcrc16recv : pySlice F 10 12 = C16 := by
    rw [pySlice_eq, hF, drop_prefix_append hHlen]
    exact take_prefix_append hC16len
  have hc16lt : ccrc16 H 0x3AA3 < 65536 := ccrc16_lt H (by norm_num)
  have hcrc16eq : ccrc16 (pySlice F 0 10) 0x3AA3 = fromLE (pySlice F 10 12) := by
    rw [hcrc16calc, hcrc16recv, hC16, fromLE_u16le hc16lt]
  -- DATA section
  have hdata : pySlice F 12 (14 + pl.length) = D := by
    rw [pySlice_eq]
    have hassoc : F = (H ++ C16) ++ (D ++ C32) := by rw [hF]; simp [List.append_assoc]
    rw [hassoc, drop_prefix_append (by simp [hHlen, hC16len])]
    have h2 : 14 + pl.length - 12 = 2 + pl.length := by omega
    rw [h2]
    exact take_prefix_append (by omega)
  -- CRC32 field
  have hcrc32calc : pySlice F 0 (14 + pl.length) = H ++ (C16 ++ D) := by
    rw [pySlice_eq, List.drop_zero]
    have hassoc : F = (H ++ (C16 ++ D)) ++ C32 := by rw [hF]; simp [List.append_assoc]
    rw [hassoc]
    exact take_prefix_append (by simp [hHlen, hC16len, hDlen]; omega)
  have hcrc32recv : pySlice F (14 + pl.length) (18 + pl.length) = C32 := by
    rw [pySlice_eq]
    have hassoc : F = (H ++ (C16 ++ D)) ++ C32 := by rw [hF]; simp [List.append_assoc]
    rw [hassoc, drop_prefix_append (by simp [hHlen, hC16len, hDlen]; omega)]
    have h2 : 18 + pl.length - (14 + pl.length) = 4 := by omega
    rw [h2]
    exact take_prefix_append hC32len
  have hc32lt : ccrc32 (H ++ (C16 ++ D)) 0x3AA3 < 4294967296 := ccrc32_lt _ (by norm_num)
  have hcrc32eq : ccrc32 (pySlice F 0 (14 + pl.length)) 0x3AA3 =
      fromLE (pySlice F (14 + pl.length) (18 + pl.length)) := by
    rw [hcrc32calc, hcrc32recv, hC32, fromLE_u32le hc32lt]
  -- assemble
  have hparse : parse_dji_frame F = Except.ok
      { version := ((18 + pl.length) >>> 10) &&& 0x3F
        length := 18 + pl.length
        frame_type := (F.getD 3 0 >>> 5) &&& 0x01
        ack_type := F.getD 3 0 &&& 0x1F
        enc := F.getD 4 0
        seq := fromLE (pySlice F 8 10)
        crc16 := fromLE (pySlice F 10 12)
        crc32 := fromLE (pySlice F (14 + pl.length) (18 + pl.length))
        cmd_set := (pySlice F 12 (14 + pl.length)).getD 0 0
        cmd_id := (pySlice F 12 (14 + pl.length)).getD 1 0
        data := (pySlice F 12 (14 + pl.length)).drop 2 } := by
    simp only [parse_dji_frame]
    rw [if_neg (by omega : ¬ F.length < 16)]
    rw [if_neg (by rw [hsof]; omega : ¬ F.getD 0 0 ≠ 0xAA)]
    rw [hvlv, hlen1023]
    rw [if_neg (by rw [hFlen]; omega : ¬ F.length ≠ 18 + pl.length)]
    rw [if_neg (by rw [hcrc16eq]; omega : ¬ ccrc16 (pySlice F 0 10) 0x3AA3 ≠ fromLE (pySlice F 10 12))]
    have hde : 18 + pl.length - 4 = 14 + pl.length := by omega
    rw [hde]
    rw [if_neg (by rw [hcrc32eq]; omega :
      ¬ ccrc32 (pySlice F 0 (14 + pl.length)) 0x3AA3 ≠
        fromLE (pySlice F (14 + pl.length) (18 + pl.length)))]
    rw [if_neg (by rw [hdata, hDlen]; omega : ¬ (pySlice F 12 (14 + pl.length)).length < 2)]
  refine ⟨_, hparse, ?_, ?_, ?_, ?_⟩
  · rw [hdata, hD]; rfl
  · rw [hdata, hD]; rfl
  · rw [hdata, hD]; rfl
  · rw [hct]
    have h31 : ack &&& 0x1F < 32 := by
      have h : ack &&& 0x1F ≤ 0x1F := Nat.and_le_right
      omega
    rcases cmd_type_facts (ack &&& 0x1F) h31 with ⟨-, -, h3, h4⟩
    cases ir
    · simpa using h4
    · simpa using h3

/-! ### Parse error-branch lemmas and tamper helpers -/

theorem parse_err_badSof {B : List Nat} (h1 : ¬ B.length < 16)
    (h2 : B.getD 0 0 ≠ 0xAA) : parse_dji_frame B = .error .badSof := by
  simp only [parse_dji_frame]
  rw [if_neg h1, if_pos h2]

theorem parse_err_lengthMismatch {B : List Nat} (h1 : ¬ B.length < 16)
    (h2 : B.getD 0 0 = 0xAA)
    (h3 : B.length ≠ fromLE (pySlice B 1 3) &&& 0x3FF) :
    parse_dji_frame B = .error .lengthMismatch := by
  simp only [parse_dji_frame]
  rw [if_neg h1, if_neg (by rw [h2]; simp), if_pos h3]

theorem parse_err_crc16 {B : List Nat} (h1 : ¬ B.length < 16)
    (h2 : B.getD 0 0 = 0xAA)
    (h3 : B.length = fromLE (pySlice B 1 3) &&& 0x3FF)
    (h4 : ccrc16 (pySlice B 0 10) 0x3AA3 ≠ fromLE (pySlice B 10 12)) :
    parse_dji_frame B = .error .crc16Mismatch := by
  simp only [parse_dji_frame]
  rw [if_neg h1, if_neg (by rw [h2]; simp), if_neg (by simp [h3]), if_pos h4]

theorem parse_err_crc32 {B : List Nat} (h1 : ¬ B.length < 16)
    (h2 : B.getD 0 0 = 0xAA)
    (h3 : B.length = fromLE (pySlice B 1 3) &&& 0x3FF)
    (h4 : ccrc16 (pySlice B 0 10) 0x3AA3 = fromLE (pySlice B 10 12))
    (h5 : ccrc32 (pySlice B 0 ((fromLE (pySlice B 1 3) &&& 0x3FF) - 4)) 0x3AA3 ≠
      fromLE (pySlice B ((fromLE (pySlice B 1 3) &&& 0x3FF) - 4)
        (fromLE (pySlice B 1 3) &&& 0x3FF))) :
    parse_dji_frame B = .error .crc32Mismatch := by
  simp only [parse_dji_frame]
  rw [if_neg h1, if_neg (by rw [h2]; simp), if_neg (by simp [h3]), if_neg (by simp [h4]),
    if_pos h5]

theorem pySlice_set_lt {l : List Nat} {p a b v : Nat} (h : p < a) :
    pySlice (l.set p v) a b = pySlice l a b := by
  simp [pySlice, List.drop_set, h]

theorem pySlice_set_ge {l : List Nat} {p a b v : Nat} (ha : a ≤ p) (hb : b ≤ p) :
    pySlice (l.set p v) a b = pySlice l a b := by
  simp only [pySlice, List.drop_set, if_neg (by omega : ¬ p < a), List.set_take]
  apply List.set_eq_of_length_le
  have h := List.length_take_le (b - a) (l.drop a)
  omega

theorem pySlice_set_inside {l : List Nat} {p a b v : Nat} (ha : a ≤ p) :
    pySlice (l.set p v) a b = (pySlice l a b).set (p - a) v := by
  simp only [pySlice, List.drop_set, if_neg (by omega : ¬ p < a), List.set_take]

theorem getD_set_ne' {l : List Nat} {p k v : Nat} (h : p ≠ k) :
    (l.set p v).getD k 0 = l.getD k 0 := by
  simp [List.getD_eq_getElem?_getD, List.getElem?_set_ne h]

theorem getD_set_self' {l : List Nat} {p v : Nat} (h : p < l.length) :
    (l.set p v).getD p 0 = v := by
  simp [List.getD_eq_getElem?_getD, List.getElem?_set_self h]

theorem getD_append_lt {l1 l2 : List Nat} {k : Nat} (h : k < l1.length) :
    (l1 ++ l2).getD k 0 = l1.getD k 0 := by
  simp [List.getD_eq_getElem?_getD, List.getElem?_append_left h]

theorem getD_append_offset {l1 l2 : List Nat} {k j : Nat} (h : l1.length = k) :
    (l1 ++ l2).getD (k + j) 0 = l2.getD j 0 := by
  subst h
  simp [List.getD_eq_getElem?_getD, List.getElem?_append_right
    (by omega : l1.length ≤ l1.length + j)]

theorem set_decomp {l : List Nat} {p v : Nat} (h : p < l.length) :
    l.set p v = l.take p ++ v :: l.drop (p + 1) := by
  rw [List.set_eq_take_append_cons_drop, if_pos h]

theorem self_decomp {l : List Nat} {p : Nat} (h : p < l.length) :
    l = l.take p ++ l.getD p 0 :: l.drop (p + 1) := by
  conv_lhs => rw [← List.take_append_drop p l]
  rw [getD_eq_getElem_of_lt l p h, List.getElem_cons_drop]

theorem getD_mem {l : List Nat} {p : Nat} (h : p < l.length) : l.getD p 0 ∈ l := by
  rw [getD_eq_getElem_of_lt l p h]
  exact List.getElem_mem h

/-- Changing one in-range byte of the input changes `_ccrc16`'s output. -/
theorem ccrc16_set_ne {X : List Nat} {p v : Nat} (hp : p < X.length)
    (hbytes : ∀ x ∈ X, x < 256) (hv : v < 256) (hne : v ≠ X.getD p 0) :
    ccrc16 (X.set p v) 0x3AA3 ≠ ccrc16 X 0x3AA3 := by
  rw [set_decomp hp]
  conv_rhs => rw [self_decomp hp]
  exact ccrc16_single_diff _ _ hv (hbytes _ (getD_mem hp)) hne (by norm_num)

/-- Changing one in-range byte of the input changes `_ccrc32`'s output. -/
theorem ccrc32_set_ne {X : List Nat} {p v : Nat} (hp : p < X.length)
    (hbytes : ∀ x ∈ X, x < 256) (hv : v < 256) (hne : v ≠ X.getD p 0) :
    ccrc32 (X.set p v) 0x3AA3 ≠ ccrc32 X 0x3AA3 := by
  rw [set_decomp hp]
  conv_rhs => rw [self_decomp hp]
  exact ccrc32_single_diff _ _ hv (hbytes _ (getD_mem hp)) hne (by norm_num)

/-- Changing one entry of a byte list changes its little-endian value. -/
theorem fromLE_set_ne : ∀ (C : List Nat) (j v : Nat), j < C.length →
    v ≠ C.getD j 0 → fromLE (C.set j v) ≠ fromLE C
  | [], j, v, hj, _ => by simp at hj
  | c :: t, 0, v, hj, hne => by
    simp only [List.set_cons_zero, fromLE]
    have hvc : v ≠ c := by simpa [List.getD] using hne
    omega
  | c :: t, j+1, v, hj, hne => by
    simp only [List.set_cons_succ, fromLE]
    have ih := fromLE_set_ne t j v (by simpa using hj) (by simpa [List.getD] using hne)
    omega

theorem and_1023_mod (x : Nat) : x &&& 0x03FF = x % 1024 := by
  have h2 : (0x03FF : Nat) = 2 ^ 10 - 1 := by norm_num
  rw [h2, Nat.and_pow_two_sub_one_eq_mod]

theorem frame_header10_normal {n : Nat} (ir : Bool) (ack : Nat) (hn : n ≤ 1005) :
    frame_header10 n ir ack = [0xAA] ++ u16le (18 + n) ++
      [(ack &&& 0x1F) ||| (if ir then 0x20 else 0x00),
       0x00, 0x00, 0x00, 0x00, 0x01, 0x00] := by
  rw [frame_header10, ver_length_eq hn]

theorem frame_header10_bytes_lt (n : Nat) (ir : Bool) (ack : Nat) :
    ∀ x ∈ frame_header10 n ir ack, x < 256 := by
  intro x hx
  have h31 : ack &&& 0x1F < 32 := by
    have h : ack &&& 0x1F ≤ 0x1F := Nat.and_le_right
    omega
  rcases cmd_type_facts (ack &&& 0x1F) h31 with ⟨hb32, hb0, -, -⟩
  have hctb : ((ack &&& 0x1F) ||| (if ir then 0x20 else 0x00)) < 256 := by
    cases ir
    · simpa using hb0
    · simpa using hb32
  simp only [frame_header10, u16le, List.mem_append, List.mem_cons,
    List.mem_singleton, List.not_mem_nil, or_false] at hx
  omega

theorem u16le_bytes_lt (c : Nat) : ∀ x ∈ u16le c, x < 256 := by
  intro x hx
  simp [u16le] at hx
  rcases hx with h | h <;> subst h <;> exact Nat.mod_lt _ (by omega)

theorem u32le_bytes_lt (c : Nat) : ∀ x ∈ u32le c, x < 256 := by
  intro x hx
  simp [u32le] at hx
  rcases hx with h | h | h | h <;> subst h <;> exact Nat.mod_lt _ (by omega)

theorem build_bytes_lt {cs ci : Nat} {pl : List Nat} {ir : Bool} {ack : Nat}
    (hcs : cs < 256) (hci : ci < 256) (hpl : ∀ b ∈ pl, b < 256) :
    ∀ x ∈ build_dji_frame cs ci pl ir ack, x < 256 := by
  rw [build_dji_frame_eq]
  intro x hx
  simp only [List.mem_append, List.mem_cons] at hx
  rcases hx with h | h | (h | h | h) | h
  · exact frame_header10_bytes_lt _ _ _ x h
  · exact u16le_bytes_lt _ x h
  · omega
  · omega
  · exact hpl x h
  · exact u32le_bytes_lt _ x h

theorem parse_err_crc32' {B : List Nat} {L : Nat} (h1 : ¬ B.length < 16)
    (h2 : B.getD 0 0 = 0xAA)
    (hL : fromLE (pySlice B 1 3) &&& 0x3FF = L)
    (h3 : B.length = L)
    (h4 : ccrc16 (pySlice B 0 10) 0x3AA3 = fromLE (pySlice B 10 12))
    (h5 : ccrc32 (pySlice B 0 (L - 4)) 0x3AA3 ≠ fromLE (pySlice B (L - 4) L)) :
    parse_dji_frame B = .error .crc32Mismatch := by
  apply parse_err_crc32 h1 h2 (by rw [hL]; exact h3) h4
  rw [hL]
  exact h5

theorem parse_err_crc16' {B : List Nat} {L : Nat} (h1 : ¬ B.length < 16)
    (h2 : B.getD 0 0 = 0xAA)
    (hL : fromLE (pySlice B 1 3) &&& 0x3FF = L)
    (h3 : B.length = L)
    (h4 : ccrc16 (pySlice B 0 10) 0x3AA3 ≠ fromLE (pySlice B 10 12)) :
    parse_dji_frame B = .error .crc16Mismatch := by
  apply parse_err_crc16 h1 h2 (by rw [hL]; exact h3) h4

theorem getD_take_lt {l : List Nat} {k p : Nat} (h : p < k) :
    (l.take k).getD p 0 = l.getD p 0 := by
  simp [List.getD_eq_getElem?_getD, List.getElem?_take_of_lt h]

theorem take_set_oob {l : List Nat} {k p : Nat} (v : Nat) (h : k ≤ p) :
    (l.set p v).take k = l.take k := by
  rw [List.set_take]
  apply List.set_eq_of_length_le
  have h2 := List.length_take_le k l
  omega

set_option maxHeartbeats 1600000 in
/-- C2 (amended): flipping any single byte of an encoded frame makes decode
fail; at byte 0 with `badSof`, at bytes 1-2 with `lengthMismatch` or
`crc16Mismatch`, and from byte 3 on always with a CRC16 or CRC32 mismatch. -/
theorem parse_tampered_frame (cs ci : Nat) (pl : List Nat) (ir : Bool) (ack : Nat)
    (p v : Nat)
    (hcs : cs < 256) (hci : ci < 256) (hpl : ∀ b ∈ pl, b < 256)
    (hack : ack < 32) (hn : pl.length ≤ 1005)
    (hp : p < (build_dji_frame cs ci pl ir ack).length)
    (hv : v < 256) (hne : v ≠ (build_dji_frame cs ci pl ir ack).getD p 0) :
    ∃ e, parse_dji_frame ((build_dji_frame cs ci pl ir ack).set p v) = .error e ∧
      (e = .badSof ∨ e = .lengthMismatch ∨ e = .crc16Mismatch ∨ e = .crc32Mismatch) ∧
      (p = 0 → e = .badSof) ∧
      (p = 1 ∨ p = 2 → e = .lengthMismatch ∨ e = .crc16Mismatch) ∧
      (3 ≤ p → e = .crc16Mismatch ∨ e = .crc32Mismatch) := by
  have key := build_dji_frame_eq cs ci pl ir ack
  set H := frame_header10 pl.length ir ack with hH
  set C16 := u16le (ccrc16 H 0x3AA3) with hC16
  set D := cs :: ci :: pl with hD
  set C32 := u32le (ccrc32 (H ++ (C16 ++ D)) 0x3AA3) with hC32
  rw [key] at hp hne ⊢
  set F := H ++ (C16 ++ (D ++ C32)) with hF
  have hFbytes : ∀ x ∈ F, x < 256 := by
    rw [← key]
    exact build_bytes_lt hcs hci hpl
  have hHlen : H.length = 10 := frame_header10_length pl.length ir ack
  have hC16len : C16.length = 2 := by rw [hC16]; rfl
  have hDlen : D.length = 2 + pl.length := by rw [hD]; simp; omega
  have hC32len : C32.length = 4 := by rw [hC32]; rfl
  have hFlen : F.length = 18 + pl.length := by
    rw [hF]; simp [hHlen, hC16len, hDlen, hC32len]; omega
  have hsof : F.getD 0 0 = 0xAA := by rw [hF, hH]; rfl
  have hvl13 : pySlice F 1 3 = u16le (18 + pl.length) := by
    rw [pySlice_eq]
    have hassoc : F = [0xAA] ++ (u16le (18 + pl.length) ++
        ([(ack &&& 0x1F) ||| (if ir then 0x20 else 0x00),
          0x00, 0x00, 0x00, 0x00, 0x01, 0x00] ++ (C16 ++ (D ++ C32)))) := by
      rw [hF, hH, frame_header10_normal ir ack hn]
      simp [List.append_assoc]
    rw [hassoc, drop_prefix_append (by rfl)]
    exact take_prefix_append (by rfl)
  have hvlv : fromLE (pySlice F 1 3) = 18 + pl.length := by
    rw [hvl13]
    exact fromLE_u16le (by omega)
  have hlen1023 : (18 + pl.length) &&& 0x03FF = 18 + pl.length :=
    and_1023_self (by omega)
  have htake10 : F.take 10 = H := by
    rw [hF]
    exact take_prefix_append hHlen
  have hcrc16recv : pySlice F 10 12 = C16 := by
    rw [pySlice_eq, hF, drop_prefix_append hHlen]
    exact take_prefix_append hC16len
  have hc16lt : ccrc16 H 0x3AA3 < 65536 := ccrc16_lt H (by norm_num)
  have htake14 : F.take (14 + pl.length) = H ++ (C16 ++ D) := by
    have hassoc : F = (H ++ (C16 ++ D)) ++ C32 := by rw [hF]; simp [List.append_assoc]
    rw [hassoc]
    exact take_prefix_append (by simp [hHlen, hC16len, hDlen]; omega)
  have hcrc32recv : pySlice F (14 + pl.length) (18 + pl.length) = C32 := by
    rw [pySlice_eq]
    have hassoc : F = (H ++ (C16 ++ D)) ++ C32 := by rw [hF]; simp [List.append_assoc]
    rw [hassoc, drop_prefix_append (by simp [hHlen, hC16len, hDlen]; omega)]
    have h2 : 18 + pl.length - (14 + pl.length) = 4 := by omega
    rw [h2]
    exact take_prefix_append hC32len
  have hc32lt : ccrc32 (H ++ (C16 ++ D)) 0x3AA3 < 4294967296 := ccrc32_lt _ (by norm_num)
  have hMlen : (F.set p v).length = 18 + pl.length := by
    rw [List.length_set]
    exact hFlen
  have h16 : ¬ (F.set p v).length < 16 := by omega
  rw [hFlen] at hp
  -- position case split
  by_cases hp0 : p = 0
  · -- BadSof
    subst hp0
    refine ⟨.badSof, ?_, by tauto, fun _ => rfl,
      fun h => absurd h (by decide), fun h => absurd h (by decide)⟩
    apply parse_err_badSof h16
    rw [getD_set_self' (by omega)]
    rw [hsof] at hne
    exact hne
  have hsofM : (F.set p v).getD 0 0 = 0xAA := by
    rw [getD_set_ne' (by omega)]
    exact hsof
  by_cases hp1 : p = 1
  · -- length byte (low) flipped: LengthMismatch
    subst hp1
    refine ⟨.lengthMismatch, ?_, by tauto, fun h => absurd h (by decide),
      fun _ => Or.inl rfl, fun h => absurd h (by decide)⟩
    apply parse_err_lengthMismatch h16 hsofM
    have hs : pySlice (F.set 1 v) 1 3 = (pySlice F 1 3).set 0 v :=
      pySlice_set_inside (by omega)
    rw [hs, hvl13]
    have hgd1 : F.getD 1 0 = (18 + pl.length) % 256 := by
      rw [hF, getD_append_lt (by omega), hH, frame_header10_normal ir ack hn]
      rfl
    rw [hgd1] at hne
    simp only [u16le, List.set_cons_zero, fromLE]
    rw [hMlen, and_1023_mod]
    have hb : (18 + pl.length) / 256 % 256 = (18 + pl.length) / 256 := by omega
    omega
  by_cases hp2 : p = 2
  · -- length byte (high) flipped: LengthMismatch or Crc16Mismatch
    subst hp2
    have hs : pySlice (F.set 2 v) 1 3 = (pySlice F 1 3).set 1 v :=
      pySlice_set_inside (by omega)
    have hgd2 : F.getD 2 0 = (18 + pl.length) / 256 % 256 := by
      rw [hF, getD_append_lt (by omega), hH, frame_header10_normal ir ack hn]
      rfl
    by_cases hdm : (F.set 2 v).length = fromLE (pySlice (F.set 2 v) 1 3) &&& 0x3FF
    · -- declared length still matches: the CRC16 catches the flip
      refine ⟨.crc16Mismatch, ?_, by tauto, fun h => absurd h (by decide),
        fun _ => Or.inr rfl, fun h => absurd h (by decide)⟩
      apply parse_err_crc16 h16 hsofM hdm
      have hcalc : pySlice (F.set 2 v) 0 10 = (F.take 10).set 2 v := by
        rw [pySlice_eq, List.drop_zero, List.set_take]
      have hrecv : pySlice (F.set 2 v) 10 12 = C16 := by
        rw [pySlice_set_lt (by omega)]
        exact hcrc16recv
      rw [hcalc, hrecv, htake10, hC16, fromLE_u16le hc16lt]
      apply ccrc16_set_ne (by omega)
      · intro x hx
        rw [hH] at hx
        exact frame_header10_bytes_lt _ _ _ x hx
      · exact hv
      · rw [hF] at hne
        rw [getD_append_lt (by omega)] at hne
        exact hne
    · -- declared length changed: LengthMismatch
      refine ⟨.lengthMismatch, ?_, by tauto, fun h => absurd h (by decide),
        fun _ => Or.inl rfl, fun h => absurd h (by decide)⟩
      exact parse_err_lengthMismatch h16 hsofM hdm
  -- from here on p ≥ 3, so bytes 0-2 are untouched and SOF / length checks pass
  have hp3 : 3 ≤ p := by omega
  have hs13 : pySlice (F.set p v) 1 3 = pySlice F 1 3 :=
    pySlice_set_ge (by omega) (by omega)
  have hdm : (F.set p v).length = fromLE (pySlice (F.set p v) 1 3) &&& 0x3FF := by
    rw [hs13, hvlv, hlen1023, hMlen]
  have hLval : fromLE (pySlice (F.set p v) 1 3) &&& 0x3FF = 18 + pl.length := by
    rw [hs13, hvlv, hlen1023]
  by_cases hp10 : p < 10
  · -- header byte flipped: Crc16Mismatch
    refine ⟨.crc16Mismatch, ?_, by tauto, fun h => absurd h hp0,
      fun h => (h.elim hp1 hp2).elim, fun _ => Or.inl rfl⟩
    apply parse_err_crc16 h16 hsofM hdm
    have hcalc : pySlice (F.set p v) 0 10 = (F.take 10).set p v := by
      rw [pySlice_eq, List.drop_zero, List.set_take]
    have hrecv : pySlice (F.set p v) 10 12 = C16 := by
      rw [pySlice_set_lt (by omega)]
      exact hcrc16recv
    rw [hcalc, hrecv, htake10, hC16, fromLE_u16le hc16lt]
    apply ccrc16_set_ne (by omega)
    · intro x hx
      rw [hH] at hx
      exact frame_header10_bytes_lt _ _ _ x hx
    · exact hv
    · rw [hF] at hne
      rw [getD_append_lt (by omega)] at hne
      exact hne
  by_cases hp12 : p < 12
  · -- stored CRC16 byte flipped: Crc16Mismatch
    refine ⟨.crc16Mismatch, ?_, by tauto, fun h => absurd h hp0,
      fun h => (h.elim hp1 hp2).elim, fun _ => Or.inl rfl⟩
    apply parse_err_crc16 h16 hsofM hdm
    have hcalc : pySlice (F.set p v) 0 10 = H := by
      rw [pySlice_eq, List.drop_zero, take_set_oob v (by omega)]
      exact htake10
    have hrecv : pySlice (F.set p v) 10 12 = C16.set (p - 10) v := by
      rw [pySlice_set_inside (by omega), hcrc16recv]
    rw [hcalc, hrecv]
    have hgd : F.getD p 0 = C16.getD (p - 10) 0 := by
      conv_lhs => rw [hF, show p = 10 + (p - 10) from by omega]
      rw [getD_append_offset hHlen, getD_append_lt (by omega)]
    rw [hgd] at hne
    have hfne : fromLE (C16.set (p - 10) v) ≠ fromLE C16 :=
      fromLE_set_ne C16 (p - 10) v (by omega) hne
    have hC16v : fromLE C16 = ccrc16 H 0x3AA3 := by
      rw [hC16]
      exact fromLE_u16le hc16lt
    rw [hC16v] at hfne
    exact fun h => hfne h.symm
  by_cases hpdata : p < 14 + pl.length
  · -- DATA byte flipped: Crc32Mismatch
    refine ⟨.crc32Mismatch, ?_, by tauto, fun h => absurd h hp0,
      fun h => (h.elim hp1 hp2).elim, fun _ => Or.inr rfl⟩
    apply parse_err_crc32' h16 hsofM hLval hMlen
    · -- the CRC16 check passes: bytes 0-11 unchanged
      have hcalc : pySlice (F.set p v) 0 10 = H := by
        rw [pySlice_eq, List.drop_zero, take_set_oob v (by omega)]
        exact htake10
      have hrecv : pySlice (F.set p v) 10 12 = C16 := by
        rw [pySlice_set_ge (by omega) (by omega)]
        exact hcrc16recv
      rw [hcalc, hrecv, hC16, fromLE_u16le hc16lt]
    · -- the CRC32 check fails
      have h4 : 18 + pl.length - 4 = 14 + pl.length := by omega
      rw [h4]
      have hcalc : pySlice (F.set p v) 0 (14 + pl.length) =
          (F.take (14 + pl.length)).set p v := by
        rw [pySlice_eq, List.drop_zero, Nat.sub_zero, List.set_take]
      have hrecv : pySlice (F.set p v) (14 + pl.length) (18 + pl.length) = C32 := by
        rw [pySlice_set_lt (by omega)]
        exact hcrc32recv
      rw [hcalc, hrecv, htake14, hC32, fromLE_u32le hc32lt]
      apply ccrc32_set_ne (by simp [hHlen, hC16len, hDlen]; omega)
      · intro x hx
        rw [← htake14] at hx
        exact hFbytes x (List.take_subset _ _ hx)
      · exact hv
      · rw [← htake14, getD_take_lt (by omega)]
        exact hne
  · -- stored CRC32 byte flipped: Crc32Mismatch
    refine ⟨.crc32Mismatch, ?_, by tauto, fun h => absurd h hp0,
      fun h => (h.elim hp1 hp2).elim, fun _ => Or.inr rfl⟩
    apply parse_err_crc32' h16 hsofM hLval hMlen
    · have hcalc : pySlice (F.set p v) 0 10 = H := by
        rw [pySlice_eq, List.drop_zero, take_set_oob v (by omega)]
        exact htake10
      have hrecv : pySlice (F.set p v) 10 12 = C16 := by
        rw [pySlice_set_ge (by omega) (by omega)]
        exact hcrc16recv
      rw [hcalc, hrecv, hC16, fromLE_u16le hc16lt]
    · have h4 : 18 + pl.length - 4 = 14 + pl.length := by omega
      rw [h4]
      have hcalc : pySlice (F.set p v) 0 (14 + pl.length) = H ++ (C16 ++ D) := by
        rw [pySlice_eq, List.drop_zero, Nat.sub_zero, take_set_oob v (by omega)]
        exact htake14
      have hrecv : pySlice (F.set p v) (14 + pl.length) (18 + pl.length) =
          C32.set (p - (14 + pl.length)) v := by
        rw [pySlice_set_inside (by omega), hcrc32recv]
      rw [hcalc, hrecv]
      have hgd : F.getD p 0 = C32.getD (p - (14 + pl.length)) 0 := by
        have hassoc : F = (H ++ (C16 ++ D)) ++ C32 := by rw [hF]; simp [List.append_assoc]
        conv_lhs => rw [hassoc, show p = (14 + pl.length) + (p - (14 + pl.length)) from by omega]
        rw [getD_append_offset (by simp [hHlen, hC16len, hDlen]; omega)]
      rw [hgd] at hne
      have hfne : fromLE (C32.set (p - (14 + pl.length)) v) ≠ fromLE C32 :=
        fromLE_set_ne C32 (p - (14 + pl.length)) v (by omega) hne
      have hC32v : fromLE C32 = ccrc32 (H ++ (C16 ++ D)) 0x3AA3 := by
        rw [hC32]
        exact fromLE_u32le hc32lt
      rw [hC32v] at hfne
      exact fun h => hfne h.symm

/-! ### Claim C1: encode/decode round trip -/

/-- C1 witness at a concrete valid tuple (the spec's 23-byte example shape). -/
theorem parse_build_roundtrip_witness :
    ∃ f, parse_dji_frame (build_dji_frame 0x1D 0x04 [1, 2, 3, 4, 5] false 1) = .ok f ∧
      f.cmd_set = 0x1D ∧ f.cmd_id = 0x04 ∧ f.data = [1, 2, 3, 4, 5] ∧
      f.frame_type = (if false then 1 else 0) :=
  parse_build_roundtrip 0x1D 0x04 [1, 2, 3, 4, 5] false 1 (by decide) (by decide)
    (by decide) (by decide) (by decide)

/-! ### Claim C2: single-byte tamper sensitivity -/

/-- C2 counterexample to the claim as stated: flipping byte 0 (the SOF byte)
of an encoded frame makes decode fail with the SOF error, not with a CRC16 or
CRC32 mismatch. -/
theorem tamper_counterexample :
    parse_dji_frame ((build_dji_frame 0x1D 0x04 [1, 2, 3, 4, 5] false 1).set 0 0xAB) =
      .error .badSof ∧
    FrameError.badSof ≠ .crc16Mismatch ∧ FrameError.badSof ≠ .crc32Mismatch := by
  refine ⟨rfl, by decide, by decide⟩

/-- C2 witness: flipping payload byte 14 of the concrete frame is caught by a
CRC mismatch. -/
theorem parse_tampered_frame_witness :
    ∃ e, parse_dji_frame ((build_dji_frame 0x1D 0x04 [1, 2, 3, 4, 5] false 1).set 14 0x05) =
        .error e ∧
      (e = .badSof ∨ e = .lengthMismatch ∨ e = .crc16Mismatch ∨ e = .crc32Mismatch) ∧
      (14 = 0 → e = .badSof) ∧
      (14 = 1 ∨ 14 = 2 → e = .lengthMismatch ∨ e = .crc16Mismatch) ∧
      (3 ≤ 14 → e = .crc16Mismatch ∨ e = .crc32Mismatch) :=
  parse_tampered_frame 0x1D 0x04 [1, 2, 3, 4, 5] false 1 14 0x05 (by decide) (by decide)
    (by decide) (by decide) (by decide) (by decide) (by decide) (by decide)

/-! ### Claim C3: subscriber lifecycle -/

/-- C3 counterexample to the claim as stated: the second `subscribe` call
starts from a nonempty registry and still issues a start-broadcast command
(two commands after two subscribes, where the claim predicts one). -/
theorem subscriber_counterexample :
    (subscribeCameraStatus ⟨[], []⟩ 0).cameraStatusCallbacks ≠ [] ∧
    (subscribeCameraStatus (subscribeCameraStatus ⟨[], []⟩ 0) 1).sentCommands =
      [⟨0x1D, 0x05, [0x02, 0x14, 0, 0, 0, 0]⟩, ⟨0x1D, 0x05, [0x02, 0x14, 0, 0, 0, 0]⟩] := by
  refine ⟨by decide, rfl⟩

/-- C3 (amended): `subscribeCameraStatus` issues the start-broadcast command on
every call, for every state of the registry — empty or not — and every
callback; `unSubscribeCameraStatus`, on a registered callback, issues the
stop-broadcast command iff the registry becomes empty; hence the
subscribe-two / unsubscribe-two scenario issues two start commands and one
stop command. -/
theorem subscriber_lifecycle_commands (st : SubscriberState) (cb : Nat) :
    (subscribeCameraStatus st cb).sentCommands =
      st.sentCommands ++ [⟨0x1D, 0x05, [0x02, 0x14, 0, 0, 0, 0]⟩] ∧
    (subscribeCameraStatus st cb).cameraStatusCallbacks =
      st.cameraStatusCallbacks ++ [cb] ∧
    (cb ∈ st.cameraStatusCallbacks →
      unSubscribeCameraStatus st cb = some
        { cameraStatusCallbacks := st.cameraStatusCallbacks.erase cb
          sentCommands :=
            if (st.cameraStatusCallbacks.erase cb).length = 0 then
              st.sentCommands ++ [⟨0x1D, 0x05, [0x00, 0x14, 0, 0, 0, 0]⟩]
            else st.sentCommands }) ∧
    (unSubscribeCameraStatus
        (subscribeCameraStatus (subscribeCameraStatus ⟨[], []⟩ 0) 1) 0).bind
      (fun s => unSubscribeCameraStatus s 1) =
      some ⟨[], [⟨0x1D, 0x05, [0x02, 0x14, 0, 0, 0, 0]⟩,
                 ⟨0x1D, 0x05, [0x02, 0x14, 0, 0, 0, 0]⟩,
                 ⟨0x1D, 0x05, [0x00, 0x14, 0, 0, 0, 0]⟩]⟩ := by
  refine ⟨rfl, rfl, ?_, by decide⟩
  intro hmem
  unfold unSubscribeCameraStatus
  rw [if_pos hmem]
  by_cases hl : (st.cameraStatusCallbacks.erase cb).length = 0
  · simp [hl]
  · simp [hl]

/-- C3 witness: the first subscribe happens on an empty registry and still
sends a command; the unsubscribe conjunct is discharged for a registered
callback. -/
theorem subscriber_lifecycle_commands_witness :
    (subscribeCameraStatus ⟨[], []⟩ 7).sentCommands =
      ([] : List SentCommand) ++ [⟨0x1D, 0x05, [0x02, 0x14, 0, 0, 0, 0]⟩] ∧
    (subscribeCameraStatus ⟨[7], []⟩ 7).cameraStatusCallbacks = [7] ++ [7] ∧
    unSubscribeCameraStatus ⟨[7], []⟩ 7 = some
      { cameraStatusCallbacks := List.erase [7] 7
        sentCommands :=
          if (List.erase [7] 7).length = 0 then
            ([] : List SentCommand) ++ [⟨0x1D, 0x05, [0x00, 0x14, 0, 0, 0, 0]⟩]
          else [] } ∧
    (unSubscribeCameraStatus
        (subscribeCameraStatus (subscribeCameraStatus ⟨[], []⟩ 0) 1) 0).bind
      (fun s => unSubscribeCameraStatus s 1) =
      some ⟨[], [⟨0x1D, 0x05, [0x02, 0x14, 0, 0, 0, 0]⟩,
                 ⟨0x1D, 0x05, [0x02, 0x14, 0, 0, 0, 0]⟩,
                 ⟨0x1D, 0x05, [0x00, 0x14, 0, 0, 0, 0]⟩]⟩ :=
  ⟨(subscriber_lifecycle_commands ⟨[], []⟩ 7).1,
   (subscriber_lifecycle_commands ⟨[7], []⟩ 7).2.1,
   (subscriber_lifecycle_commands ⟨[7], []⟩ 7).2.2.1 (by decide),
   (subscriber_lifecycle_commands ⟨[7], []⟩ 7).2.2.2⟩

/-! ### Claim C4: malformed approval notifications -/

/-- C5: `_ccrc16` and `_ccrc32` are pure table-driven functions computing, for
every byte sequence, the fold of
`crc = table[(crc ^ byte) & 0xFF] ^ (crc >> 8)` (masked to 16 resp. 32 bits)
over the input, from seed `0x3AA3` for both widths, using 256-entry tables;
both return the seed on the empty sequence. -/
theorem crc_checksums_are_table_folds :
    (∀ data : List Nat, ccrc16 data 0x3AA3 = List.foldl crc16_update 0x3AA3 data) ∧
    (∀ data : List Nat, ccrc32 data 0x3AA3 = List.foldl crc32_update 0x3AA3 data) ∧
    (∀ crc b, crc16_update crc b =
      (DJI_CRC16_TABLE.getD ((crc ^^^ b) &&& 0xFF) 0 ^^^ (crc >>> 8)) &&& 0xFFFF) ∧
    (∀ crc b, crc32_update crc b =
      (DJI_CRC32_TABLE.getD ((crc ^^^ b) &&& 0xFF) 0 ^^^ (crc >>> 8)) &&& 0xFFFFFFFF) ∧
    DJI_CRC16_TABLE.length = 256 ∧ DJI_CRC32_TABLE.length = 256 ∧
    ccrc16 [] 0x3AA3 = 0x3AA3 ∧ ccrc32 [] 0x3AA3 = 0x3AA3 :=
  ⟨fun data => ccrc16_loop_eq_foldl data 0x3AA3,
   fun data => ccrc32_loop_eq_foldl data 0x3AA3,
   fun _ _ => rfl, fun _ _ => rfl, rfl, rfl, rfl, rfl⟩

/-! ### Claim C8: operations whose success test compares bytes with an int -/

/-- C8: `setMode`, `startRecording`, `stopRecording` and `grabImage` return
`False` for every possible response (including none), because their success
condition compares the response's bytes `data` field with the integer `0`. -/
theorem camera_ops_always_false :
    (∀ resp, setMode_result resp = false) ∧
    (∀ resp, startRecording_result resp = false) ∧
    (∀ resp, stopRecording_result resp = false) ∧
    (∀ resp, grabImage_result resp = false) := by
  refine ⟨?_, ?_, ?_, ?_⟩ <;> intro resp <;> cases resp <;> rfl

/-! ### Claim C9: grabImage and startRecording coincide -/

/-- C9: `grabImage` and `startRecording` send byte-for-byte identical command
frames — cmdSet `0x1D`, cmdId `0x03`, payload = little-endian device id,
action byte `0x00`, four zero bytes — with identical options, and compute
their results identically. -/
theorem grabImage_eq_startRecording :
    (∀ device_id, grabImage_command device_id = startRecording_command device_id) ∧
    (∀ device_id, (startRecording_command device_id).cmd_set = 0x1D ∧
      (startRecording_command device_id).cmd_id = 0x03 ∧
      (startRecording_command device_id).payload =
        u32le device_id ++ 0x00 :: [0, 0, 0, 0] ∧
      (startRecording_command device_id).wait_for_response = true) ∧
    (∀ device_id, build_dji_frame (grabImage_command device_id).cmd_set
        (grabImage_command device_id).cmd_id
        (grabImage_command device_id).payload false 1 =
      build_dji_frame (startRecording_command device_id).cmd_set
        (startRecording_command device_id).cmd_id
        (startRecording_command device_id).payload false 1) ∧
    (∀ resp, grabImage_result resp = startRecording_result resp) := by
  refine ⟨fun d => rfl, fun d => ⟨rfl, rfl, ?_, rfl⟩, fun d => rfl, fun r => rfl⟩
  simp [startRecording_command, pack_IB4s, List.append_assoc]

set_option maxRecDepth 100000

/-! ### Claim C6: total enum decoding -/

/-- C6: each enumerated CameraStatus field decodes totally over the byte
domain: a raw byte in the known value set yields the variant carrying exactly
that value, and every byte outside the known set yields `UNKNOWN` — never an
error. -/
theorem enum_decoding_total :
    (∀ b, b < 256 →
      (b ∈ [0x38, 0x3A, 0x3C, 0x3F, 0x41, 0x43, 0x44, 0x4A] →
        (CameraMode.ofValue b).val = (b : Int)) ∧
      (b ∉ [0x38, 0x3A, 0x3C, 0x3F, 0x41, 0x43, 0x44, 0x4A] →
        CameraMode.ofValue b = .UNKNOWN)) ∧
    (∀ b, b < 256 →
      (b ∈ [0x00, 0x01, 0x02, 0x03, 0x05] → (ViewStatus.ofValue b).val = (b : Int)) ∧
      (b ∉ [0x00, 0x01, 0x02, 0x03, 0x05] → ViewStatus.ofValue b = .UNKNOWN)) ∧
    (∀ b, b < 256 →
      (b ∈ [10, 16, 45, 66, 95, 103, 109, 4, 3, 2] →
        (VideoResolution.ofValue b).val = (b : Int)) ∧
      (b ∉ [10, 16, 45, 66, 95, 103, 109, 4, 3, 2] →
        VideoResolution.ofValue b = .UNKNOWN)) ∧
    (∀ b, b < 256 →
      (b ∈ [1, 2, 3, 4, 5, 6, 10, 7, 19, 8] → (FPSIdx.ofValue b).val = (b : Int)) ∧
      (b ∉ [1, 2, 3, 4, 5, 6, 10, 7, 19, 8] → FPSIdx.ofValue b = .UNKNOWN)) ∧
    (∀ b, b < 256 →
      (b ∈ [0, 1, 2, 3, 4] → (EISMode.ofValue b).val = (b : Int)) ∧
      (b ∉ [0, 1, 2, 3, 4] → EISMode.ofValue b = .UNKNOWN)) ∧
    (∀ b, b < 256 →
      (b ∈ [0, 1] → (PhotoRatio.ofValue b).val = (b : Int)) ∧
      (b ∉ [0, 1] → PhotoRatio.ofValue b = .UNKNOWN)) ∧
    (∀ b, b < 256 →
      (b ∈ [0, 1, 2, 3, 4, 5] → (UserMode.ofValue b).val = (b : Int)) ∧
      (b ∉ [0, 1, 2, 3, 4, 5] → UserMode.ofValue b = .UNKNOWN)) ∧
    (∀ b, b < 256 →
      (b ∈ [0, 3] → (PowerMode.ofValue b).val = (b : Int)) ∧
      (b ∉ [0, 3] → PowerMode.ofValue b = .UNKNOWN)) ∧
    (∀ b, b < 256 →
      (b ∈ [0, 1, 2, 3] → (TempOver.ofValue b).val = (b : Int)) ∧
      (b ∉ [0, 1, 2, 3] → TempOver.ofValue b = .UNKNOWN)) := by
  refine ⟨?_, ?_, ?_, ?_, ?_, ?_, ?_, ?_, ?_⟩ <;> decide

/-- C6 witness. -/
theorem enum_decoding_total_witness :
    (CameraMode.ofValue 0x38).val = (0x38 : Int) ∧
    CameraMode.ofValue 0x99 = .UNKNOWN ∧
    TempOver.ofValue 9 = .UNKNOWN :=
  ⟨(enum_decoding_total.1 0x38 (by decide)).1 (by decide),
   (enum_decoding_total.1 0x99 (by decide)).2 (by decide),
   ((enum_decoding_total.2.2.2.2.2.2.2.2) 9 (by decide)).2 (by decide)⟩

/-! ### Claim C7: command timeout behaviour -/

/-- C7: when a response is expected and none arrives before the timeout,
`send_dji_command` returns `None` (an ordinary result, not an exception) and
leaves the channel in the cleared state — no pending frame, event reset — so
any subsequent command behaves exactly as from a freshly reset channel. -/
theorem send_timeout_returns_none (st : ChannelState) (cmd_set cmd_id : Nat)
    (payload : List Nat) (hconn : st.connected = true) :
    send_dji_command st cmd_set cmd_id payload true false none none =
      .ok (none, ⟨true, none, false⟩) ∧
    ∀ (cs2 ci2 : Nat) (pl2 : List Nat) (w2 r2 : Bool)
      (dw arr : Option ParsedFrame) (st2 : ChannelState),
      st2 = ⟨true, none, false⟩ →
      send_dji_command st2 cs2 ci2 pl2 w2 r2 dw arr =
        send_dji_command ⟨true, none, false⟩ cs2 ci2 pl2 w2 r2 dw arr := by
  constructor
  · simp [send_dji_command, hconn]
  · intro cs2 ci2 pl2 w2 r2 dw arr st2 h2
    rw [h2]

/-- C7 witness. -/
theorem send_timeout_returns_none_witness :
    send_dji_command ⟨true, none, true⟩ 0x1D 0x03 [1, 2] true false none none =
      .ok (none, ⟨true, none, false⟩) ∧
    ∀ (cs2 ci2 : Nat) (pl2 : List Nat) (w2 r2 : Bool)
      (dw arr : Option ParsedFrame) (st2 : ChannelState),
      st2 = ⟨true, none, false⟩ →
      send_dji_command st2 cs2 ci2 pl2 w2 r2 dw arr =
        send_dji_command ⟨true, none, false⟩ cs2 ci2 pl2 w2 r2 dw arr :=
  send_timeout_returns_none ⟨true, none, true⟩ 0x1D 0x03 [1, 2] rfl

/-! ### Claim C10: the telemetry decoder's exact length threshold -/

theorem obind_isSome {A B : Type} (o : Option A) (f : A → Option B) :
    (obind o f).isSome ↔ ∃ a, o = some a ∧ (f a).isSome := by
  cases o <;> simp [obind]

theorem eq_pair_of_length_two : ∀ {l : List Nat}, l.length = 2 → ∃ x y, l = [x, y]
  | [x, y], _ => ⟨x, y, rfl⟩
  | [], h => by simp at h
  | [x], h => by simp at h
  | x :: y :: z :: t, h => by simp at h

theorem eq_quad_of_length_four : ∀ {l : List Nat}, l.length = 4 →
    ∃ a b c d, l = [a, b, c, d]
  | [a, b, c, d], _ => ⟨a, b, c, d, rfl⟩
  | [], h => by simp at h
  | [a], h => by simp at h
  | [a, b], h => by simp at h
  | [a, b, c], h => by simp at h
  | a :: b :: c :: d :: e :: t, h => by simp at h

/-- C10: `CameraStatus.parseFromData` succeeds exactly on payloads of at least
38 bytes (the highest offset read is 37); on anything shorter it raises. -/
theorem parseFromData_length_threshold :
    ∀ data : List Nat, (CameraStatus.parseFromData data).isSome ↔ 38 ≤ data.length := by
  intro data
  constructor
  · intro h
    simp only [CameraStatus.parseFromData, obind_isSome] at h
    obtain ⟨b0, hb0, b1, hb1, b2, hb2, b3, hb3, b4, hb4, r1, hr1, b8, hb8, r2, hr2,
      r3, hr3, r4, hr4, r5, hr5, r6, hr6, r7, hr7, b28, hb28, b29, hb29, b30, hb30,
      r8, hr8, r9, hr9, b37, hb37, -⟩ := h
    obtain ⟨h37, -⟩ := List.getElem?_eq_some_iff.mp hb37
    omega
  · intro h
    have hb0 : data[0]? = some data[0] := List.getElem?_eq_getElem (by omega)
    have hb1 : data[1]? = some data[1] := List.getElem?_eq_getElem (by omega)
    have hb2 : data[2]? = some data[2] := List.getElem?_eq_getElem (by omega)
    have hb3 : data[3]? = some data[3] := List.getElem?_eq_getElem (by omega)
    have hb4 : data[4]? = some data[4] := List.getElem?_eq_getElem (by omega)
    have hb8 : data[8]? = some data[8] := List.getElem?_eq_getElem (by omega)
    have hb28 : data[28]? = some data[28] := List.getElem?_eq_getElem (by omega)
    have hb29 : data[29]? = some data[29] := List.getElem?_eq_getElem (by omega)
    have hb30 : data[30]? = some data[30] := List.getElem?_eq_getElem (by omega)
    have hb37 : data[37]? = some data[37] := List.getElem?_eq_getElem (by omega)
    obtain ⟨x1, y1, e1⟩ := eq_pair_of_length_two
      (show (pySlice data 5 7).length = 2 by simp [pySlice]; omega)
    obtain ⟨x2, y2, e2⟩ := eq_pair_of_length_two
      (show (pySlice data 9 11).length = 2 by simp [pySlice]; omega)
    obtain ⟨x3, y3, e3⟩ := eq_pair_of_length_two
      (show (pySlice data 11 13).length = 2 by simp [pySlice]; omega)
    obtain ⟨x4, y4, e4⟩ := eq_pair_of_length_two
      (show (pySlice data 13 15).length = 2 by simp [pySlice]; omega)
    obtain ⟨x5, y5, e5⟩ := eq_pair_of_length_two
      (show (pySlice data 35 37).length = 2 by simp [pySlice]; omega)
    obtain ⟨a1, a2, a3, a4, f1⟩ := eq_quad_of_length_four
      (show (pySlice data 15 19).length = 4 by simp [pySlice]; omega)
    obtain ⟨c1, c2, c3, c4, f2⟩ := eq_quad_of_length_four
      (show (pySlice data 19 23).length = 4 by simp [pySlice]; omega)
    obtain ⟨d1, d2, d3, d4, f3⟩ := eq_quad_of_length_four
      (show (pySlice data 23 27).length = 4 by simp [pySlice]; omega)
    obtain ⟨g1, g2, g3, g4, f4⟩ := eq_quad_of_length_four
      (show (pySlice data 31 35).length = 4 by simp [pySlice]; omega)
    simp [CameraStatus.parseFromData, obind, hb0, hb1, hb2, hb3, hb4, hb8, hb28,
      hb29, hb30, hb37, e1, e2, e3, e4, e5, f1, f2, f3, f4, unpack_H, unpack_I]
